import Mathlib

/-!
A verification development for the `ts2c` transpiler (`src/transpile.ts`).

The repository ships a single source file, `src/transpile.ts`, containing the
class `Transpiler`: a recursive AST walker that lowers a subset of TypeScript
to C89 text.  Its collaborators (`Emitter`, `TypeHelper`, `MemoryManager`,
`PrintfTranspiler`, the `CType` data model) are imported from files that are
not part of the repository snapshot; those are modelled from the
specification (each such definition carries a doc comment starting with
"Modelled from the spec:").  Everything else is a direct shallow embedding of
`transpile.ts`.

Conventions of the embedding:
* TypeScript exceptions (reading a property of `undefined`) are modelled by
  `Except.error` carrying a `Crash` value that records the message and the
  transpiler state at the moment of the crash.
* The TypeScript type-checker oracle (`GlobalContext.typeChecker`) is
  modelled by attaching its answers to the AST nodes that consult it
  (converted operand types on binary/prefix-unary expressions, converted
  signature types on function declarations).
* `node.parent.kind` (consulted only by the `=` branch of the
  `BinaryExpression` case) is modelled by threading the parent kind through
  the recursion, which coincides with the AST parent for every node the
  walker reaches.
* String scanning (`indexOf`, `replace`, `slice`) is implemented over
  `List Char` so that every definition evaluates inside the kernel.
-/

/-- The AST node kinds of `ts.SyntaxKind` that `transpile.ts` mentions,
plus a catch-all `other` for kinds the walker does not implement. -/
inductive SyntaxKind where
  | functionDeclaration
  | variableStatement
  | variableDeclaration
  | variableDeclarationList
  | propertyAssignment
  | block
  | ifStatement
  | forStatement
  | forOfStatement
  | forInStatement
  | whileStatement
  | doStatement
  | returnStatement
  | expressionStatement
  | callExpression
  | propertyAccessExpression
  | elementAccessExpression
  | binaryExpression
  | prefixUnaryExpression
  | postfixUnaryExpression
  | objectLiteralExpression
  | arrayLiteralExpression
  | trueKeyword
  | falseKeyword
  | nullKeyword
  | numericLiteral
  | stringLiteral
  | identifier
  | sourceFile
  | endOfFileToken
  | semicolonToken
  | openBraceToken
  | closeBraceToken
  | equalsToken
  | equalsEqualsToken
  | equalsEqualsEqualsToken
  | lessThanToken
  | lessThanEqualsToken
  | greaterThanToken
  | greaterThanEqualsToken
  | plusToken
  | minusToken
  | asteriskToken
  | slashToken
  | exclamationToken
  | plusPlusToken
  | minusMinusToken
  | other (name : String)
deriving DecidableEq

/-- Modelled from the spec: the semantic C type (`CType`) of `types.ts`
(§3 of the spec), a tagged variant.  Primitives are carried as their C
name string, matching the source's comparisons such as
`leftType == 'char *'` and `leftType != 'int16_t'`. -/
inductive CType where
  | prim (name : String)
  | structT (name : String) (fields : List (String × CType))
  | arrayT (elem : CType) (capacity : Nat) (dynamic : Bool)
  | pointer (pointee : CType)

/-- The TypeScript comparison `ctype == "<some primitive name>"`: true only
when the `CType` is the primitive carried as exactly that string (a
`StructType`/`ArrayType` object never equals a string in JS). -/
def CType.eqStr (t : CType) (s : String) : Bool :=
  match t with
  | .prim n => n == s
  | _ => false

/-- The TypeScript `instanceof ArrayType` test. -/
def CType.isArrayType : CType → Bool
  | .arrayT _ _ _ => true
  | _ => false

/-- Modelled from the spec: §3, "`requiresAllocation` is true iff the value
is a struct or array" (the `VariableInfo` registry lives in the missing
`types.ts`). -/
def CType.requiresAllocation : CType → Bool
  | .structT _ _ => true
  | .arrayT _ _ _ => true
  | _ => false

/-- Modelled from the spec: §3, the per-variable registry entry of the
missing `types.ts`.  The allocation hints specified as stored fields
(`requiresAllocation`, `isDynamicArray`) are derived from `type` exactly as
§3 defines them; `declaration-site` and `escapes` feed only the
`MemoryManager`, which this development models as emitting nothing. -/
structure VariableInfo where
  name : String
  type : CType

def VariableInfo.requiresAllocation (vi : VariableInfo) : Bool :=
  vi.type.requiresAllocation

/-- Modelled from the spec: a variable is a dynamic array exactly when its
`Array` type has the `dynamic` flag (§3). -/
def VariableInfo.isDynamicArray (vi : VariableInfo) : Bool :=
  match vi.type with
  | .arrayT _ _ d => d
  | _ => false

/-- Modelled from the spec: §4.1, the string form of a `CType`; the fixed
array form embeds the variable name through the `\x7bvar\x7d` placeholder.
Dynamic arrays and structs are heap layouts behind runtime typedefs whose
exact spelling the spec leaves open; any non-empty rendering works for the
claims below. -/
def getTypeString : CType → String
  | .prim n => n
  | .pointer t => getTypeString t ++ " *"
  | .structT n _ => "struct " ++ n ++ " *"
  | .arrayT el cap false => getTypeString el ++ " \x7bvar\x7d[" ++ toString cap ++ "]"
  | .arrayT el _ true => "DYN_ARRAY(" ++ getTypeString el ++ ")"

/-- The closed enumeration of predefined header keys of `emit.ts` (§4.3). -/
inductive HeaderKey where
  | stdioh
  | stdlibh
  | stringh
  | asserth
  | bool
  | js_eq
  | array
  | array_pop
deriving DecidableEq

/-- Modelled from the spec: the text each header key contributes to the
output (§4.3 / §6; the private runtime macro headers are external, any
fixed rendering works for the claims below). -/
def headerText : HeaderKey → String
  | .stdioh => "#include <stdio.h>\n"
  | .stdlibh => "#include <stdlib.h>\n"
  | .stringh => "#include <string.h>\n"
  | .asserth => "#include <assert.h>\n"
  | .bool => "#define TRUE 1\n#define FALSE 0\n"
  | .js_eq => "#include \"js_eq.h\"\n"
  | .array => "#include \"array.h\"\n"
  | .array_pop => "#include \"array_pop.h\"\n"

/-- The canonical emission order of the header set (§4.3: `finalize`
concatenates the sorted, deduplicated headers first). -/
def headerOrder : List HeaderKey :=
  [.stdioh, .stdlibh, .stringh, .asserth, .bool, .js_eq, .array, .array_pop]

/-- Modelled from the spec: §4.3, the multi-target text buffer of the
missing `emit.ts`.  `out` is the default target (the buffer the Transpiler
rewrites through `transpiledCode[defaultTarget]`), `prologue` the
function-prologue region spliced back at `finalizeFunction`, `headers` the
deduplicated header set, `onceKeys` the dedup keys of
`emitOnceToBeginningOfFunction`.  Indentation is tracked as a counter but
no indentation whitespace is inserted into the buffers: every claim below
is about the token content of the output, which the spec keeps independent
of pretty-printing ("No pretty-printing guarantees beyond readability"). -/
structure EmitterState where
  out : String := ""
  prologue : String := ""
  onceKeys : List String := []
  headers : List HeaderKey := []
  indent : Nat := 0
  mark : Nat := 0
deriving DecidableEq

def EmitterState.emit (s : String) (e : EmitterState) : EmitterState :=
  { e with out := e.out ++ s }

def EmitterState.emitToBeginningOfFunction (s : String) (e : EmitterState) : EmitterState :=
  { e with prologue := e.prologue ++ s }

/-- §4.3: as `emitToBeginningOfFunction` but suppressing duplicates, keyed
by the exact text. -/
def EmitterState.emitOnceToBeginningOfFunction (s : String) (e : EmitterState) : EmitterState :=
  if s ∈ e.onceKeys then e
  else { e with prologue := e.prologue ++ s, onceKeys := e.onceKeys ++ [s] }

def EmitterState.emitPredefinedHeader (k : HeaderKey) (e : EmitterState) : EmitterState :=
  if k ∈ e.headers then e else { e with headers := e.headers ++ [k] }

def EmitterState.increaseIndent (e : EmitterState) : EmitterState :=
  { e with indent := e.indent + 1 }

/-- §4.3: indentation is never negative (`Nat` subtraction saturates). -/
def EmitterState.decreaseIndent (e : EmitterState) : EmitterState :=
  { e with indent := e.indent - 1 }

/-- §4.3: opens a function's isolated target set. -/
def EmitterState.beginFunction (e : EmitterState) : EmitterState :=
  { e with prologue := "", onceKeys := [], mark := e.out.data.length }

/-- §4.3: marks where the prologue region will be spliced. -/
def EmitterState.beginFunctionBody (e : EmitterState) : EmitterState :=
  { e with mark := e.out.data.length }

/-- §4.3: after `finalizeFunction` the prologue, body and epilogue are
concatenated (the prologue is spliced at the `beginFunctionBody` mark). -/
def EmitterState.finalizeFunction (e : EmitterState) : EmitterState :=
  { e with
    out := ⟨e.out.data.take e.mark⟩ ++ e.prologue ++ ⟨e.out.data.drop e.mark⟩
    prologue := ""
    onceKeys := []
    mark := 0 }

/-- §4.3: `finalize` concatenates the deduplicated headers (in the fixed
canonical order), the collected code, and a trailing newline. -/
def EmitterState.finalize (e : EmitterState) : String :=
  String.join ((headerOrder.filter (· ∈ e.headers)).map headerText) ++ e.out ++ "\n"

/-- The JS regex replace `/;\n$/` of `transpile.ts` line 171: strip one
trailing ";\n" from the default target, if present. -/
def stripSemiNl (s : String) : String :=
  if decide ((";\n").data.IsSuffix s.data) then ⟨s.data.take (s.data.length - 2)⟩ else s

/-- The mutable state of one `Transpiler` instance: the emitter, the
accumulated `errors` array, and the counter behind the spec-modelled
`addNewIteratorVariable` (§4.1: unique per translation unit). -/
structure TState where
  emitter : EmitterState := {}
  errors : List String := []
  iterCount : Nat := 0
deriving DecidableEq

/-- `Transpiler.addError` (line 575): push, never throw. -/
def addError (msg : String) (st : TState) : TState :=
  { st with errors := st.errors ++ [msg] }

/-- Modelled from the spec: §4.1 `addNewIteratorVariable` of the missing
`types.ts` returns a unique, stable name for a generated `int16_t` loop
counter (scenario E5 shows the `iterator_1` shape). -/
def addNewIteratorVariable (st : TState) : String × TState :=
  ("iterator_" ++ toString (st.iterCount + 1), { st with iterCount := st.iterCount + 1 })

def stEmit (s : String) (st : TState) : TState :=
  { st with emitter := st.emitter.emit s }

def stEmitProlog (s : String) (st : TState) : TState :=
  { st with emitter := st.emitter.emitToBeginningOfFunction s }

def stEmitOnceProlog (s : String) (st : TState) : TState :=
  { st with emitter := st.emitter.emitOnceToBeginningOfFunction s }

def stHeader (k : HeaderKey) (st : TState) : TState :=
  { st with emitter := st.emitter.emitPredefinedHeader k }

def stInc (st : TState) : TState :=
  { st with emitter := st.emitter.increaseIndent }

def stDec (st : TState) : TState :=
  { st with emitter := st.emitter.decreaseIndent }

/-- Strip a trailing ";\n" from the default target
(`transpiledCode[this.emitter.defaultTarget]`, line 170-171). -/
def stStripSemiNl (st : TState) : TState :=
  { st with emitter := { st.emitter with out := stripSemiNl st.emitter.out } }

/-- A thrown TypeScript exception (a `TypeError` from reading a property of
`undefined`): the message and the transpiler state at the throw. -/
structure Crash where
  msg : String
  state : TState
deriving DecidableEq

deriving instance DecidableEq for Except

/-- The result of one walker step: normal return with the updated state, or
a propagating exception. -/
abbrev TRes := Except Crash TState

/-- The TypeScript AST fragment `transpile.ts` dispatches on.  Oracle
answers of the type checker are attached where the source consults it:
`binaryExpression` carries the converted types of its operands (lines
390-391), `prefixUnaryExpression` of its operand (line 434), and
`functionDeclaration` the converted signature types (lines 34-47).
`stringLiteral` carries the raw source text including its quotes, as
returned by `getText()`.  `unsupported` stands for every node kind the
walker has no case for, carrying its `ts.SyntaxKind[...]` name. -/
inductive Node where
  | functionDeclaration (name : String) (ret : CType) (params : List (String × CType))
      (body : List Node)
  | variableStatement (decls : List Node)
  | variableDeclaration (name : String) (initializer : Option Node)
  | variableDeclarationList (decls : List Node)
  | block (stmts : List Node)
  | ifStatement (cond : Node) (thenS : Node) (elseS : Option Node)
  | forStatement (initializer : Option Node) (cond : Option Node) (incr : Option Node)
      (body : Node)
  | forOfStatement (initDecls : List Node) (expr : Node) (body : Node)
  | forInStatement (initDecls : List Node) (expr : Node) (body : Node)
  | whileStatement (cond : Node) (body : Node)
  | doStatement (body : Node) (cond : Node)
  | returnStatement (expr : Option Node)
  | expressionStatement (expr : Node)
  | callExpression (callee : Node) (args : List Node)
  | propertyAccessExpression (expr : Node) (name : String)
  | elementAccessExpression (expr : Node) (arg : Node)
  | binaryExpression (left : Node) (op : SyntaxKind) (right : Node)
      (leftType rightType : CType)
  | prefixUnaryExpression (op : SyntaxKind) (operand : Node) (operandType : CType)
  | postfixUnaryExpression (operand : Node) (op : SyntaxKind)
  | objectLiteralExpression (props : List (String × Node))
  | arrayLiteralExpression (elems : List Node)
  | trueKeyword
  | falseKeyword
  | nullKeyword
  | numericLiteral (text : String)
  | stringLiteral (raw : String)
  | identifier (name : String)
  | sourceFile (stmts : List Node)
  | semicolonToken
  | openBraceToken
  | closeBraceToken
  | unsupported (kindName : String)

/-- `node.kind`. -/
def Node.kind : Node → SyntaxKind
  | .functionDeclaration _ _ _ _ => .functionDeclaration
  | .variableStatement _ => .variableStatement
  | .variableDeclaration _ _ => .variableDeclaration
  | .variableDeclarationList _ => .variableDeclarationList
  | .block _ => .block
  | .ifStatement _ _ _ => .ifStatement
  | .forStatement _ _ _ _ => .forStatement
  | .forOfStatement _ _ _ => .forOfStatement
  | .forInStatement _ _ _ => .forInStatement
  | .whileStatement _ _ => .whileStatement
  | .doStatement _ _ => .doStatement
  | .returnStatement _ => .returnStatement
  | .expressionStatement _ => .expressionStatement
  | .callExpression _ _ => .callExpression
  | .propertyAccessExpression _ _ => .propertyAccessExpression
  | .elementAccessExpression _ _ => .elementAccessExpression
  | .binaryExpression _ _ _ _ _ => .binaryExpression
  | .prefixUnaryExpression _ _ _ => .prefixUnaryExpression
  | .postfixUnaryExpression _ _ => .postfixUnaryExpression
  | .objectLiteralExpression _ => .objectLiteralExpression
  | .arrayLiteralExpression _ => .arrayLiteralExpression
  | .trueKeyword => .trueKeyword
  | .falseKeyword => .falseKeyword
  | .nullKeyword => .nullKeyword
  | .numericLiteral _ => .numericLiteral
  | .stringLiteral _ => .stringLiteral
  | .identifier _ => .identifier
  | .sourceFile _ => .sourceFile
  | .semicolonToken => .semicolonToken
  | .openBraceToken => .openBraceToken
  | .closeBraceToken => .closeBraceToken
  | .unsupported _ => .other ""

/-- The reverse enum lookup `ts.SyntaxKind[node.kind]`, used only to build
error messages in the default branches (no claim depends on the exact
spelling; token kinds with enum aliases may print their alias name in
TypeScript). -/
def Node.kindName : Node → String
  | .functionDeclaration _ _ _ _ => "FunctionDeclaration"
  | .variableStatement _ => "VariableStatement"
  | .variableDeclaration _ _ => "VariableDeclaration"
  | .variableDeclarationList _ => "VariableDeclarationList"
  | .block _ => "Block"
  | .ifStatement _ _ _ => "IfStatement"
  | .forStatement _ _ _ _ => "ForStatement"
  | .forOfStatement _ _ _ => "ForOfStatement"
  | .forInStatement _ _ _ => "ForInStatement"
  | .whileStatement _ _ => "WhileStatement"
  | .doStatement _ _ => "DoStatement"
  | .returnStatement _ => "ReturnStatement"
  | .expressionStatement _ => "ExpressionStatement"
  | .callExpression _ _ => "CallExpression"
  | .propertyAccessExpression _ _ => "PropertyAccessExpression"
  | .elementAccessExpression _ _ => "ElementAccessExpression"
  | .binaryExpression _ _ _ _ _ => "BinaryExpression"
  | .prefixUnaryExpression _ _ _ => "PrefixUnaryExpression"
  | .postfixUnaryExpression _ _ => "PostfixUnaryExpression"
  | .objectLiteralExpression _ => "ObjectLiteralExpression"
  | .arrayLiteralExpression _ => "ArrayLiteralExpression"
  | .trueKeyword => "TrueKeyword"
  | .falseKeyword => "FalseKeyword"
  | .nullKeyword => "NullKeyword"
  | .numericLiteral _ => "NumericLiteral"
  | .stringLiteral _ => "StringLiteral"
  | .identifier _ => "Identifier"
  | .sourceFile _ => "SourceFile"
  | .semicolonToken => "SemicolonToken"
  | .openBraceToken => "OpenBraceToken"
  | .closeBraceToken => "CloseBraceToken"
  | .unsupported n => n

/-- The source text of an operator token (`token.getText()`), used only in
the "Unsupported operator" error message. -/
def opTokenText : SyntaxKind → String
  | .equalsToken => "="
  | .equalsEqualsToken => "=="
  | .equalsEqualsEqualsToken => "==="
  | .lessThanToken => "<"
  | .lessThanEqualsToken => "<="
  | .greaterThanToken => ">"
  | .greaterThanEqualsToken => ">="
  | .plusToken => "+"
  | .minusToken => "-"
  | .asteriskToken => "*"
  | .slashToken => "/"
  | .exclamationToken => "!"
  | .plusPlusToken => "++"
  | .minusMinusToken => "--"
  | _ => "?"

mutual

/-- `node.getText()`: the source text of a node.  The embedding does not
retain the original character stream, so the text is reconstructed
canonically; the transpiler reads it only for identifiers, literals,
variable-declaration bindings and the for-of error message. -/
def Node.getText : Node → String
  | .functionDeclaration name _ params body =>
      "function " ++ name ++ "(" ++ String.intercalate ", " (params.map (·.1)) ++ ") \x7b "
        ++ Node.getTextList body ++ " \x7d"
  | .variableStatement decls => "let " ++ Node.getTextSep decls ++ ";"
  | .variableDeclaration name none => name
  | .variableDeclaration name (some i) => name ++ " = " ++ Node.getText i
  | .variableDeclarationList decls => "let " ++ Node.getTextSep decls
  | .block stmts => "\x7b " ++ Node.getTextList stmts ++ " \x7d"
  | .ifStatement c t none => "if (" ++ Node.getText c ++ ") " ++ Node.getText t
  | .ifStatement c t (some e) =>
      "if (" ++ Node.getText c ++ ") " ++ Node.getText t ++ " else " ++ Node.getText e
  | .forStatement i c n b =>
      "for (" ++ Node.getTextOpt i ++ "; " ++ Node.getTextOpt c ++ "; " ++ Node.getTextOpt n
        ++ ") " ++ Node.getText b
  | .forOfStatement ds e b =>
      "for (let " ++ Node.getTextSep ds ++ " of " ++ Node.getText e ++ ") " ++ Node.getText b
  | .forInStatement ds e b =>
      "for (let " ++ Node.getTextSep ds ++ " in " ++ Node.getText e ++ ") " ++ Node.getText b
  | .whileStatement c b => "while (" ++ Node.getText c ++ ") " ++ Node.getText b
  | .doStatement b c => "do " ++ Node.getText b ++ " while (" ++ Node.getText c ++ ");"
  | .returnStatement none => "return;"
  | .returnStatement (some e) => "return " ++ Node.getText e ++ ";"
  | .expressionStatement e => Node.getText e ++ ";"
  | .callExpression f args => Node.getText f ++ "(" ++ Node.getTextSep args ++ ")"
  | .propertyAccessExpression e n => Node.getText e ++ "." ++ n
  | .elementAccessExpression e a => Node.getText e ++ "[" ++ Node.getText a ++ "]"
  | .binaryExpression l op r _ _ =>
      Node.getText l ++ " " ++ opTokenText op ++ " " ++ Node.getText r
  | .prefixUnaryExpression op e _ => opTokenText op ++ Node.getText e
  | .postfixUnaryExpression e op => Node.getText e ++ opTokenText op
  | .objectLiteralExpression props => "\x7b " ++ Node.getTextProps props ++ " \x7d"
  | .arrayLiteralExpression elems => "[" ++ Node.getTextSep elems ++ "]"
  | .trueKeyword => "true"
  | .falseKeyword => "false"
  | .nullKeyword => "null"
  | .numericLiteral t => t
  | .stringLiteral raw => raw
  | .identifier name => name
  | .sourceFile stmts => Node.getTextList stmts
  | .semicolonToken => ";"
  | .openBraceToken => "\x7b"
  | .closeBraceToken => "\x7d"
  | .unsupported n => "<" ++ n ++ ">"

def Node.getTextOpt : Option Node → String
  | none => ""
  | some n => Node.getText n

def Node.getTextList : List Node → String
  | [] => ""
  | [n] => Node.getText n
  | n :: rest => Node.getText n ++ " " ++ Node.getTextList rest

def Node.getTextSep : List Node → String
  | [] => ""
  | [n] => Node.getText n
  | n :: rest => Node.getText n ++ ", " ++ Node.getTextSep rest

def Node.getTextProps : List (String × Node) → String
  | [] => ""
  | [(k, v)] => k ++ ": " ++ Node.getText v
  | (k, v) :: rest => k ++ ": " ++ Node.getText v ++ ", " ++ Node.getTextProps rest

end

/-- Modelled from the spec: the variable registry the missing `types.ts`
populates during `figureOutVariablesAndTypes`; the embedding takes it as a
pre-computed input of the translation. -/
structure Env where
  vars : String → Option VariableInfo

/-- Modelled from the spec: §4.1 `getVariableInfo(identifier)`.  The
source also passes non-identifier nodes (lines 411, 418); the registry is
keyed by variables, so those yield no entry. -/
def Env.getVariableInfo (env : Env) : Node → Option VariableInfo
  | .identifier name => env.vars name
  | _ => none

def dquoteChar : Char := '"'

def bslashChar : Char := '\\'

def squoteChar : Char := Char.ofNat 39

/-- The first regex of `convertString` (line 570): `replace(/"/g, STR)`
escapes every double quote. -/
def escDoubleQuotes : List Char → List Char
  | [] => []
  | c :: rest =>
      if c = dquoteChar then bslashChar :: dquoteChar :: escDoubleQuotes rest
      else c :: escDoubleQuotes rest

/-- The second regex of `convertString` (line 570):
`replace(/([^\\])\\'/g, "$1'")` unescapes an escaped single quote after a
non-backslash character, scanning left to right over non-overlapping
matches. -/
def unescSingleQuotes : List Char → List Char
  | c1 :: c2 :: c3 :: rest =>
      if c1 ≠ bslashChar ∧ c2 = bslashChar ∧ c3 = squoteChar then
        c1 :: squoteChar :: unescSingleQuotes rest
      else
        c1 :: unescSingleQuotes (c2 :: c3 :: rest)
  | l => l

/-- `Transpiler.convertString` (lines 568-573): a single-quoted literal is
reflowed to a double-quoted one; anything else passes through. -/
def convertString (tsString : String) : String :=
  if tsString.data.head? = some squoteChar then
    let inner := ((unescSingleQuotes (escDoubleQuotes tsString.data)).drop 1).dropLast
    ⟨(dquoteChar :: inner) ++ [dquoteChar]⟩
  else tsString

/-- `str.indexOf(pat) != -1` over character lists. -/
def listContainsSub : List Char → List Char → Bool
  | [], pat => pat.isPrefixOf ([] : List Char)
  | l@(_ :: rest), pat => pat.isPrefixOf l || listContainsSub rest pat

/-- The JS `String.replace` with a plain-string pattern: replace the first
occurrence only (line 79, for the `\x7bvar\x7d` placeholder). -/
def listReplaceFirst : List Char → List Char → List Char → List Char
  | [], _, _ => []
  | c :: rest, pat, repl =>
      if pat.isPrefixOf (c :: rest) then repl ++ (c :: rest).drop pat.length
      else c :: listReplaceFirst rest pat repl

def strContains (s pat : String) : Bool := listContainsSub s.data pat.data

def strReplaceFirst (s pat repl : String) : String :=
  ⟨listReplaceFirst s.data pat.data repl.data⟩

/-- `Transpiler.convertOperatorToken` (lines 529-557); the default branch
records an error and returns the placeholder. -/
def convertOperatorToken (op : SyntaxKind) (st : TState) : String × TState :=
  match op with
  | .greaterThanEqualsToken => (" >= ", st)
  | .greaterThanToken => (" > ", st)
  | .lessThanEqualsToken => (" <= ", st)
  | .lessThanToken => (" < ", st)
  | .equalsEqualsEqualsToken => (" == ", st)
  | .equalsEqualsToken => (" == ", st)
  | .plusToken => (" + ", st)
  | .minusToken => (" - ", st)
  | .asteriskToken => (" * ", st)
  | .slashToken => (" / ", st)
  | .equalsToken => (" = ", st)
  | k => ("<unsupported operator>", addError ("Unsupported operator: " ++ opTokenText k) st)

/-- Modelled from the spec: the printf sub-transpiler (§4.4, §9: its
format-synthesis rules are "a design freedom"); it renders one
`console.log` argument as a `printf` call.  No claim below depends on its
output. -/
def printfTranspile (arg : Node) (st : TState) : TState :=
  stEmit ("printf(" ++ Node.getText arg ++ ")") st

/-- The `console.log` argument loop (lines 286-287). -/
def printfArgs (args : List Node) (st : TState) : TState :=
  args.foldl (fun s a => printfTranspile a s) st

mutual

/-- `Transpiler.transpileNode` (lines 28-506): the dispatch over
`node.kind`.  `parentKind` models `node.parent.kind`, consulted only by
the `=` branch of the `BinaryExpression` case (line 408); every recursive
call below passes the kind of the node the child hangs from in the
TypeScript AST.  Reading a property of `undefined` becomes
`Except.error`. -/
def transpileNode (env : Env) (parentKind : SyntaxKind) (node : Node) (st : TState) : TRes :=
  match node with
  | .functionDeclaration name ret params body => do
      -- lines 30-63
      let st := { st with emitter := st.emitter.beginFunction }
      let st := stEmit (getTypeString ret) st
      let st := stEmit " " st
      let st := stEmit name st
      let st := stEmit "(" st
      let st := stEmit (String.intercalate ", "
        (params.map (fun p => getTypeString p.2 ++ " " ++ p.1))) st
      let st := stEmit ")\n" st
      let st := stEmit "\x7b\n" st
      let st := stInc st
      let st := { st with emitter := st.emitter.beginFunctionBody }
      -- insertGCVariablesCreationIfNecessary: modelled as emitting nothing
      let st ← transpileNodes env .block body st
      match body.getLast? with
      | none =>
          -- line 56 reads `.kind` of `statements[statements.length - 1]`,
          -- which is `undefined` for an empty body
          .error ⟨"TypeError: cannot read kind of undefined", st⟩
      | some _ =>
          -- lines 56-58: the destructor epilogue (modelled as empty) is
          -- inserted unless the last statement is a return
          let st := stDec st
          let st := stEmit "\x7d\n" st
          pure { st with emitter := st.emitter.finalizeFunction }
  | .variableStatement decls =>
      -- lines 64-71
      transpileNodes env .variableDeclarationList decls st
  | .variableDeclaration name initializer =>
      -- lines 72-117
      let varInfo := env.vars name
      let cTypeString :=
        match varInfo with
        | some vi => getTypeString vi.type
        | none => "void *"
      let st :=
        if strContains cTypeString "\x7bvar\x7d" then
          stEmitProlog (strReplaceFirst cTypeString "\x7bvar\x7d" name) st
        else
          stEmitProlog (cTypeString ++ " " ++ name) st
      let st := stEmitProlog ";\n" st
      match varInfo with
      | none =>
          -- line 84 reads `varInfo.requiresAllocation` of `undefined`
          .error ⟨"TypeError: cannot read requiresAllocation of undefined", st⟩
      | some vi =>
          let st :=
            if vi.requiresAllocation then
              match vi.type with
              | .arrayT _ cap _ =>
                  -- lines 86-91
                  let optimizedCap := Nat.max (cap * 2) 4
                  let st := stEmit ("ARRAY_CREATE(" ++ vi.name ++ ", "
                    ++ toString optimizedCap ++ ", " ++ toString cap ++ ");\n") st
                  let st := stHeader .asserth st
                  stHeader .stdlibh st
              | _ =>
                  -- lines 92-100
                  let st := stEmit vi.name st
                  let st := stEmit " = " st
                  let st := stEmit ("malloc(sizeof(*" ++ vi.name ++ "));\n") st
                  let st := stEmit ("assert(" ++ vi.name ++ " != NULL);\n") st
                  let st := stHeader .asserth st
                  stHeader .stdlibh st
            else st
          transpileVarDeclInitializer env vi name initializer st
  | .block stmts => do
      -- lines 119-126; `getChildren()` yields the brace tokens around the
      -- statement list, and each brace token hits the default branch
      -- (`addError`), inlined here
      let st := stEmit "\x7b\n" st
      let st := stInc st
      let st := addError "Non-supported node: OpenBraceToken" st
      let st ← transpileNodes env .block stmts st
      let st := addError "Non-supported node: CloseBraceToken" st
      let st := stDec st
      pure (stEmit "\x7d\n" st)
  | .ifStatement cond thenS elseS => do
      -- lines 128-147
      let st := stEmit "if (" st
      let st ← transpileNode env .ifStatement cond st
      let st := stEmit ")\n" st
      let st := if thenS.kind ≠ .block then stInc st else st
      let st ← transpileNode env .ifStatement thenS st
      let st := if thenS.kind ≠ .block then stDec st else st
      match elseS with
      | none => pure st
      | some e => do
          let st := stEmit "else\n" st
          let st := if e.kind ≠ .block then stInc st else st
          let st ← transpileNode env .ifStatement e st
          let st := if e.kind ≠ .block then stDec st else st
          pure st
  | .forStatement initializer cond incr body => do
      -- lines 149-188
      let st ← transpileForInitOpt env initializer st
      -- lines 173-187
      let st := stEmit ";" st
      let st ← match cond with
        | some c => transpileNode env .forStatement c st
        | none => pure st
      let st := stEmit ";" st
      let st ← match incr with
        | some i => transpileNode env .forStatement i st
        | none => pure st
      let st := stEmit ")\n" st
      let st := stEmit "\x7b\n" st
      let st := stInc st
      -- lines 182-185: a block body contributes its `.statements` directly
      -- (the second arm of the inner match is unreachable under the kind
      -- test)
      let st ← (if body.kind = .block then
          match body with
          | .block bstmts => transpileNodes env .block bstmts st
          | _ => pure st
        else transpileNode env .forStatement body st)
      let st := stDec st
      pure (stEmit "\x7d\n" st)
  | .forOfStatement initDecls expr body =>
      -- lines 190-222
      if expr.kind ≠ .identifier then
        -- line 194: the message interpolates `forOfStatement.getText()`
        pure (addError ("Unsupported type of expression as array in for of: "
          ++ Node.getText (.forOfStatement initDecls expr body)) st)
      else do
        let p := addNewIteratorVariable st
        let iteratorVarName := p.1
        let st := p.2
        let st := stEmitOnceProlog ("int16_t " ++ iteratorVarName ++ ";\n") st
        let arrayName := Node.getText expr
        match env.getVariableInfo expr with
        | none =>
            -- line 203 reads `.type` of an `undefined` registry entry
            .error ⟨"TypeError: cannot read type of undefined", st⟩
        | some arrayVarInfo =>
            -- the unchecked `<ArrayType>` cast (line 203): `.capacity` of a
            -- non-array type is `undefined`
            let capacityStr :=
              match arrayVarInfo.type with
              | .arrayT _ cap _ => toString cap
              | _ => "undefined"
            let arraySize :=
              if arrayVarInfo.isDynamicArray then arrayName ++ ".size" else capacityStr
            let arrayAccess :=
              if arrayVarInfo.isDynamicArray then arrayName ++ ".data" else arrayName
            let st := stEmit ("for (" ++ iteratorVarName ++ " = 0; " ++ iteratorVarName
              ++ " < " ++ arraySize ++ "; " ++ iteratorVarName ++ "++)\n") st
            let st := stEmit "\x7b\n" st
            let st := stInc st
            let st ← transpileForOfBinding env arrayAccess iteratorVarName initDecls st
            -- lines 214-217 (the second arm of the inner match is
            -- unreachable under the kind test)
            let st ← (if body.kind = .block then
                match body with
                | .block bstmts => transpileNodes env .block bstmts st
                | _ => pure st
              else transpileNode env .forOfStatement body st)
            let st := stDec st
            pure (stEmit "\x7d\n" st)
  | .forInStatement _ _ _ =>
      -- lines 223-225
      pure (addError "For-in statement is not yet supported!" st)
  | .whileStatement cond body => do
      -- lines 226-241
      let st := stEmit "while (" st
      let st ← transpileNode env .whileStatement cond st
      let st := stEmit ")" st
      let st := stEmit "\x7b\n" st
      let st := stInc st
      -- lines 234-237 (the second arm of the inner match is unreachable
      -- under the kind test)
      let st ← (if body.kind = .block then
          match body with
          | .block bstmts => transpileNodes env .block bstmts st
          | _ => pure st
        else transpileNode env .whileStatement body st)
      let st := stDec st
      pure (stEmit "\x7d\n" st)
  | .doStatement body cond => do
      -- lines 242-256
      let st := stEmit "do \x7b\n" st
      let st := stInc st
      -- lines 247-250 (the second arm of the inner match is unreachable
      -- under the kind test)
      let st ← (if body.kind = .block then
          match body with
          | .block bstmts => transpileNodes env .block bstmts st
          | _ => pure st
        else transpileNode env .doStatement body st)
      let st := stDec st
      let st := stEmit "\x7d while (" st
      let st ← transpileNode env .doStatement cond st
      pure (stEmit ");\n" st)
  | .returnStatement expr => do
      -- lines 257-268 (insertDestructorsIfNecessary modelled as empty)
      let st := stEmit "return" st
      match expr with
      | none => pure (stEmit ";\n" st)
      | some e => do
          let st := stEmit " " st
          let st ← transpileNode env .returnStatement e st
          pure (stEmit ";\n" st)
  | .expressionStatement e => do
      -- lines 269-274: `getChildren()` is the expression plus the
      -- semicolon token, which hits the no-op SemicolonToken case
      let st ← transpileNode env .expressionStatement e st
      pure (stEmit ";\n" st)
  | .callExpression callee args =>
      -- lines 275-326; the three built-in patterns all require the callee
      -- to be a property access on an identifier (lines 279-283, 288, 302)
      let builtinPattern : Option (String × String) :=
        match callee with
        | .propertyAccessExpression (.identifier o) p => some (o, p)
        | _ => none
      match builtinPattern with
      | some (objName, propName) =>
          -- `varInfo && varInfo.type instanceof ArrayType` (lines 292-293,
          -- 306-307)
          let isArrayVar : Bool :=
            match env.vars objName with
            | some vi => vi.type.isArrayType
            | none => false
          if objName = "console" ∧ propName = "log" then
            -- lines 281-287
            let st := stHeader .stdioh st
            pure (printfArgs args st)
          else if propName = "push" ∧ args.length = 1 ∧ isArrayVar then do
            -- lines 288-301
            let st := stHeader .array st
            let st := stEmit "ARRAY_PUSH(" st
            let st := stEmit objName st
            let st := stEmit "," st
            let st ← match args with
              | a :: _ => transpileNode env .callExpression a st
              | [] => pure st
            pure (stEmit ")" st)
          else if propName = "pop" ∧ args.length = 0 ∧ isArrayVar then do
            -- lines 302-314
            let st := stHeader .array_pop st
            let st := stEmit "ARRAY_POP(" st
            let st := stEmit objName st
            pure (stEmit ")" st)
          else do
            -- lines 316-325, `callReplaced` still false
            let st ← transpileNode env .callExpression callee st
            let st := stEmit "(" st
            let st ← transpileCallArgs env args st
            pure (stEmit ")" st)
      | none => do
          -- lines 316-325
          let st ← transpileNode env .callExpression callee st
          let st := stEmit "(" st
          let st ← transpileCallArgs env args st
          pure (stEmit ")" st)
  | .propertyAccessExpression pexpr pname =>
      -- lines 328-353
      let replaced : Option TState :=
        match pexpr with
        | .identifier objName =>
            if pname = "length" then
              match env.vars objName with
              | some vi =>
                  match vi.type with
                  | .arrayT _ cap _ =>
                      if vi.isDynamicArray then
                        some (stEmit "size" (stEmit "." (stEmit objName st)))
                      else
                        some (stEmit (toString cap) st)
                  | _ => none
              | none => none
            else none
        | _ => none
      match replaced with
      | some st => pure st
      | none => do
          -- lines 348-352
          let st ← transpileNode env .propertyAccessExpression pexpr st
          let st := stEmit "->" st
          pure (stEmit pname st)
  | .elementAccessExpression eexpr earg =>
      -- lines 355-385
      -- lines 359-364: identifier indexed by a string literal;
      -- `getText().slice(1, -1)` strips the quotes
      let litAccess : Option (String × String) :=
        match eexpr, earg with
        | .identifier o, .stringLiteral raw => some (o, ⟨(raw.data.drop 1).dropLast⟩)
        | _, _ => none
      -- lines 365-367: identifier whose registry entry is array-typed
      let arrAccess : Option (String × Bool) :=
        match eexpr with
        | .identifier o =>
            match env.vars o with
            | some vi => if vi.type.isArrayType then some (o, vi.isDynamicArray) else none
            | none => none
        | _ => none
      match litAccess with
      | some (objName, stripped) =>
          let st := stEmit objName st
          let st := stEmit "->" st
          pure (stEmit stripped st)
      | none =>
          match arrAccess with
          | some (objName, dyn) => do
              -- lines 368-375
              let st := stEmit objName st
              let st := if dyn then stEmit ".data" st else st
              let st := stEmit "[" st
              let st ← transpileNode env .elementAccessExpression earg st
              pure (stEmit "]" st)
          | none => do
              -- lines 378-384
              let st := stEmit "js_get(" st
              let st ← transpileNode env .elementAccessExpression eexpr st
              let st := stEmit ", " st
              let st ← transpileNode env .elementAccessExpression earg st
              pure (stEmit ")" st)
  | .binaryExpression l op r lt rt =>
      -- lines 387-429
      if op = .equalsEqualsToken ∧ lt.eqStr "char *" ∧ rt.eqStr "char *" then do
        -- lines 392-399
        let st := stEmit "strcmp(" st
        let st ← transpileNode env .binaryExpression l st
        let st := stEmit ", " st
        let st ← transpileNode env .binaryExpression r st
        let st := stEmit ") == 0" st
        pure (stHeader .stringh st)
      else if op = .equalsEqualsToken ∧ (¬ lt.eqStr "int16_t" ∨ ¬ rt.eqStr "int16_t") then do
        -- lines 400-407
        let st := stHeader .js_eq st
        let st := stEmit "js_eq(" st
        let st ← transpileNode env .binaryExpression l st
        let st := stEmit ", " st
        let st ← transpileNode env .binaryExpression r st
        pure (stEmit ")" st)
      else if op = .equalsToken ∧ parentKind ≠ .expressionStatement then
        -- lines 408-409
        pure (addError "Assignments inside expressions are not yet supported." st)
      else if op = .equalsToken ∧ r.kind = .objectLiteralExpression then
        -- lines 410-416
        match env.getVariableInfo l with
        | some vi =>
            match r with
            | .objectLiteralExpression props =>
                transpileObjectLiteralAssignment env vi.name props st
            | _ => pure st
        | none =>
            pure (addError ("Only variable, element access or property access are supported"
              ++ " as left hand side expression in assignment of ObjectLiteralExpression.") st)
      else if op = .equalsToken ∧ r.kind = .arrayLiteralExpression then
        -- lines 417-423
        match env.getVariableInfo l with
        | some vi =>
            match r with
            | .arrayLiteralExpression elems =>
                transpileArrayLiteralAssignment env vi.name 0 elems st
            | _ => pure st
        | none =>
            pure (addError ("Only variable, element access or property access are supported"
              ++ " as left hand side expression in assignment of ArrayLiteralExpression.") st)
      else do
        -- lines 424-428
        let st ← transpileNode env .binaryExpression l st
        let p := convertOperatorToken op st
        let st := stEmit p.1 p.2
        transpileNode env .binaryExpression r st
  | .prefixUnaryExpression op operand _opType =>
      -- lines 431-456
      match op with
      | .exclamationToken =>
          if _opType.eqStr "char *" then do
            -- lines 439-446, with `transpileStringExpression` (lines
            -- 559-566) inlined: a non-identifier operand is parenthesized,
            -- an identifier is emitted via `getText()`
            let st := stEmit "(!" st
            let st ← (if operand.kind = .identifier then
                pure (stEmit (Node.getText operand) st)
              else do
                let st := stEmit "(" st
                let st ← transpileNode env .prefixUnaryExpression operand st
                pure (stEmit ")" st))
            let st := stEmit " || !" st
            let st ← (if operand.kind = .identifier then
                pure (stEmit (Node.getText operand) st)
              else do
                let st := stEmit "(" st
                let st ← transpileNode env .prefixUnaryExpression operand st
                pure (stEmit ")" st))
            pure (stEmit "[0])" st)
          else do
            let st := stEmit "!" st
            transpileNode env .prefixUnaryExpression operand st
      | _ =>
          -- lines 450-452: the message interpolates `SyntaxKind[node.kind]`
          -- of the whole prefix expression, and the operand is skipped
          pure (addError "Non-supported unary operator: PrefixUnaryExpression" st)
  | .postfixUnaryExpression operand op => do
      -- lines 458-472
      let st ← transpileNode env .postfixUnaryExpression operand st
      match op with
      | .minusMinusToken => pure (stEmit "--" st)
      | .plusPlusToken => pure (stEmit "++" st)
      | _ =>
          -- the message interpolates `SyntaxKind[node.kind]` of the whole
          -- postfix expression
          pure (addError "Non-supported postfix unary operator: PostfixUnaryExpression" st)
  | .trueKeyword =>
      -- lines 474-477
      pure (stHeader .bool (stEmit "TRUE" st))
  | .falseKeyword =>
      -- lines 478-481 (header first, then the emit)
      pure (stEmit "FALSE" (stHeader .bool st))
  | .nullKeyword => pure (stEmit "NULL" st)
  | .numericLiteral t => pure (stEmit t st)
  | .stringLiteral raw => pure (stEmit (convertString raw) st)
  | .identifier name => pure (stEmit name st)
  | .sourceFile stmts =>
      -- lines 494-498: SourceFile recurses into its SyntaxList child, which
      -- recurses into the statements; EndOfFileToken has no children
      transpileNodes env .sourceFile stmts st
  | .semicolonToken => pure st
  | .openBraceToken => pure (addError "Non-supported node: OpenBraceToken" st)
  | .closeBraceToken => pure (addError "Non-supported node: CloseBraceToken" st)
  | .variableDeclarationList _ =>
      pure (addError "Non-supported node: VariableDeclarationList" st)
  | .objectLiteralExpression _ =>
      pure (addError "Non-supported node: ObjectLiteralExpression" st)
  | .arrayLiteralExpression _ =>
      pure (addError "Non-supported node: ArrayLiteralExpression" st)
  | .unsupported kindName =>
      -- lines 501-503
      pure (addError ("Non-supported node: " ++ kindName) st)

/-- The `forEach(s => this.transpileNode(s))` loops over child lists. -/
def transpileNodes (env : Env) (parentKind : SyntaxKind) : List Node → TState → TRes
  | [], st => pure st
  | n :: rest, st => do
      let st ← transpileNode env parentKind n st
      transpileNodes env parentKind rest st

/-- Lines 211-213: the loop-binding declaration of a `for ... of`
(`declarations[0]` of its initializer list) is transpiled and then
assigned the current element at the top of each iteration; an empty
declaration list crashes on the `undefined` index. -/
def transpileForOfBinding (env : Env) (arrayAccess iteratorVarName : String) :
    List Node → TState → TRes
  | [], st => .error ⟨"TypeError: cannot read kind of undefined", st⟩
  | d :: _, st => do
      let st ← transpileNode env .variableDeclarationList d st
      pure (stEmit (Node.getText d ++ " = " ++ arrayAccess ++ "["
        ++ iteratorVarName ++ "];\n") st)

/-- Lines 153-172: the initializer slot of a `for` statement.  A
`VariableDeclarationList` goes through the hoisting policy; any other
(expression) initializer is transpiled inside the header after `for (`
and its trailing ";\n", if any, stripped; an absent initializer leaves
the slot empty. -/
def transpileForInitOpt (env : Env) : Option Node → TState → TRes
  | none, st => pure (stEmit "for (" st)
  | some ini, st =>
      if ini.kind = .variableDeclarationList then
        -- lines 154-166
        transpileForInitList env ini st
      else do
        let st := stEmit "for (" st
        let st ← transpileNode env .forStatement ini st
        pure (stStripSemiNl st)

/-- The `VariableDeclarationList` initializer node of a `for` (reached
only under the kind test of line 154; any other node contributes
nothing). -/
def transpileForInitList (env : Env) : Node → TState → TRes
  | .variableDeclarationList decls, st => transpileForInit env decls st
  | _, st => pure st

/-- Lines 154-172: the `VariableDeclarationList` initializer of a `for`.
All declarations but the last are transpiled standalone; the last stays in
the header (after `for (`, with the trailing ";\n" stripped) unless it
requires heap allocation, in which case it is hoisted too and the header
slot stays empty. -/
def transpileForInit (env : Env) : List Node → TState → TRes
  | [], st =>
      -- `declarations[declarations.length - 1]` of an empty list is
      -- `undefined`; line 160 then reads its `.name`
      .error ⟨"TypeError: cannot read name of undefined", st⟩
  | [d], st =>
      -- `d` is the last declaration (lines 159-172)
      match d with
      | .variableDeclaration lname _ =>
          match env.vars lname with
          | none =>
              -- line 161 reads `.requiresAllocation` of `undefined`
              .error ⟨"TypeError: cannot read requiresAllocation of undefined", st⟩
          | some vi =>
              if vi.requiresAllocation then do
                -- lines 161-163: hoist, leave the header slot empty
                let st ← transpileNode env .variableDeclarationList d st
                pure (stEmit "for (" st)
              else do
                -- lines 164-172
                let st := stEmit "for (" st
                let st ← transpileNode env .variableDeclarationList d st
                pure (stStripSemiNl st)
      | _ =>
          -- a list entry that is no declaration has no `.name` identifier
          .error ⟨"TypeError: cannot read requiresAllocation of undefined", st⟩
  | d :: d2 :: rest, st => do
      -- line 156: all but the last, standalone
      let st ← transpileNode env .variableDeclarationList d st
      transpileForInit env (d2 :: rest) st

/-- Lines 316-325 argument loop: arguments separated by ", ". -/
def transpileCallArgs (env : Env) : List Node → TState → TRes
  | [], st => pure st
  | [a], st => transpileNode env .callExpression a st
  | a :: a2 :: rest, st => do
      let st ← transpileNode env .callExpression a st
      let st := stEmit ", " st
      transpileCallArgs env (a2 :: rest) st

/-- `Transpiler.transpileObjectLiteralAssignment` (lines 508-517). -/
def transpileObjectLiteralAssignment (env : Env) (varString : String) :
    List (String × Node) → TState → TRes
  | [], st => pure st
  | (pname, pinit) :: rest, st => do
      let st := stEmit (varString ++ "->") st
      let st := stEmit pname st
      let st := stEmit " = " st
      let st ← transpileNode env .propertyAssignment pinit st
      let st := stEmit ";\n" st
      transpileObjectLiteralAssignment env varString rest st

/-- `Transpiler.transpileArrayLiteralAssignment` (lines 519-527). -/
def transpileArrayLiteralAssignment (env : Env) (varString : String) (i : Nat) :
    List Node → TState → TRes
  | [], st => pure st
  | e :: rest, st => do
      let st := stEmit varString st
      let st := stEmit ("[" ++ toString i ++ "]") st
      let st := stEmit " = " st
      let st ← transpileNode env .arrayLiteralExpression e st
      let st := stEmit ";\n" st
      transpileArrayLiteralAssignment env varString (i + 1) rest st

/-- Lines 102-116: the initializer tail of the `VariableDeclaration` case
(reached only when the registry lookup succeeded; line 84 crashed
otherwise). -/
def transpileVarDeclInitializer (env : Env) (vi : VariableInfo) (declName : String) :
    Option Node → TState → TRes
  | none, st => pure st
  | some i, st =>
      if i.kind = .objectLiteralExpression then
        -- lines 103-105 (the target string is `varDecl.name.getText()`)
        match i with
        | .objectLiteralExpression props =>
            transpileObjectLiteralAssignment env declName props st
        | _ => pure st
      else if i.kind = .arrayLiteralExpression then
        -- lines 106-109 (the target string is built from `varInfo.name`)
        match i with
        | .arrayLiteralExpression elems =>
            let varString := if vi.isDynamicArray then vi.name ++ ".data" else vi.name
            transpileArrayLiteralAssignment env varString 0 elems st
        | _ => pure st
      else do
        -- lines 110-115
        let st := stEmit declName st
        let st := stEmit " = " st
        let st ← transpileNode env .variableDeclaration i st
        pure (stEmit ";\n" st)

end

/-- `Transpiler.transpile` (lines 15-26): run the walker over the source
file; if any error was recorded, return the newline-joined error list,
otherwise the emitter's `finalize` output.  The `TypeHelper` pre-pass is
the pre-computed `env`; the `MemoryManager` passes are modelled as
emitting nothing. -/
def transpile (env : Env) (sourceFile : Node) : Except Crash String := do
  let st ← transpileNode env .sourceFile sourceFile {}
  if st.errors.length ≠ 0 then
    pure (String.intercalate "\n" st.errors)
  else
    pure st.emitter.finalize

/-- The default-target text of a successful walker step. -/
def outOf (r : TRes) : Option String :=
  match r with
  | .ok st => some st.emitter.out
  | .error _ => none

/-- The error list of a successful walker step. -/
def errsOf (r : TRes) : Option (List String) :=
  match r with
  | .ok st => some st.errors
  | .error _ => none

/-- The transpiler state of a walker result (for a crash, the state at the
throw); used to name intermediate states concretely in witnesses. -/
def stateOf (r : TRes) : TState :=
  match r with
  | .ok st => st
  | .error c => c.state

/-- The recorded errors at the moment of a crash of `transpile` (and
`none` when `transpile` returned normally). -/
def crashErrsOf (r : Except Crash String) : Option (List String) :=
  match r with
  | .ok _ => none
  | .error c => some c.state.errors

/-- An empty registry: no variable has a `VariableInfo`. -/
def env0 : Env := ⟨fun _ => none⟩

/-- A single-statement body `y++;` used as a non-block loop/if body. -/
def incStmt : Node :=
  .expressionStatement (.postfixUnaryExpression (.identifier "y") .plusPlusToken)

/-- Registry for the C2 counterexample: `m` is a fixed array (capacity 2)
of fixed `int16_t` arrays of capacity 3, so `m[0]` is a known array. -/
def envC2 : Env := ⟨fun n =>
  if n = "m" then some ⟨"m", .arrayT (.arrayT (.prim "int16_t") 3 false) 2 false⟩
  else none⟩

/-- Registry for the C2 witness: `a` is a dynamic array, `b` a fixed array
of capacity 7. -/
def envC2w : Env := ⟨fun n =>
  if n = "a" then some ⟨"a", .arrayT (.prim "int16_t") 5 true⟩
  else if n = "b" then some ⟨"b", .arrayT (.prim "int16_t") 7 false⟩
  else none⟩

/-- Registry for the C6 witness: `i`, `j`, `k` are plain `int16_t`
variables, `d` a dynamic array (requires heap allocation). -/
def envC6 : Env := ⟨fun n =>
  if n = "i" then some ⟨"i", .prim "int16_t"⟩
  else if n = "j" then some ⟨"j", .prim "int16_t"⟩
  else if n = "k" then some ⟨"k", .prim "int16_t"⟩
  else if n = "d" then some ⟨"d", .arrayT (.prim "int16_t") 2 true⟩
  else none⟩

/-- Registry for the C7 counterexample: `m2` is an `int16_t` variable (not
an array), `x` the loop binding. -/
def envC7 : Env := ⟨fun n =>
  if n = "m2" then some ⟨"m2", .prim "int16_t"⟩
  else if n = "x" then some ⟨"x", .prim "int16_t"⟩
  else none⟩

/-- Registry for the C7 witness: `arr` is a dynamic array, `v` the loop
binding. -/
def envC7w : Env := ⟨fun n =>
  if n = "arr" then some ⟨"arr", .arrayT (.prim "int16_t") 4 true⟩
  else if n = "v" then some ⟨"v", .prim "int16_t"⟩
  else none⟩

/-- Registry for the C8 witness: `a` is a dynamic array of capacity 3. -/
def envC8 : Env := ⟨fun n =>
  if n = "a" then some ⟨"a", .arrayT (.prim "int16_t") 3 true⟩
  else none⟩

/-- The C1 counterexample unit: a for-in statement (which records an
error) followed by a function declaration with an empty body (which
crashes). -/
def cuC1 : Node :=
  .sourceFile [.forInStatement [] .nullKeyword (.expressionStatement .nullKeyword),
    .functionDeclaration "f" (.prim "void *") [] []]

/-- The C1 witness unit: a lone for-in statement, whose translation
completes with one recorded error. -/
def cuC1w : Node :=
  .sourceFile [.forInStatement [] .nullKeyword (.expressionStatement .nullKeyword)]

/-- C5: for every assignment expression whose parent is not an expression
statement, exactly the error "Assignments inside expressions are not yet
supported." is recorded and nothing is emitted for the assignment. -/
theorem c5_assignment_inside_expression (env : Env) (parentKind : SyntaxKind)
    (l r : Node) (lt rt : CType) (st : TState)
    (h : parentKind ≠ .expressionStatement) :
    transpileNode env parentKind (.binaryExpression l .equalsToken r lt rt) st =
      .ok (addError "Assignments inside expressions are not yet supported." st) := by
  cases parentKind <;> first | exact absurd rfl h | rfl

theorem c5_assignment_inside_expression_witness :
    transpileNode env0 .ifStatement
      (.binaryExpression (.identifier "o") .equalsToken .nullKeyword
        (.prim "void *") (.prim "void *")) {} =
      .ok (addError "Assignments inside expressions are not yet supported." {}) :=
  c5_assignment_inside_expression env0 .ifStatement (.identifier "o") .nullKeyword
    (.prim "void *") (.prim "void *") {} (by decide)

/-- C9: transpiling a function declaration with an empty body throws (the
handler reads `.kind` of the undefined last statement) instead of
recording an error; and a unit containing such a declaration makes
`transpile` throw rather than return anything. -/
theorem c9_empty_function_body_throws (env : Env) (parentKind : SyntaxKind)
    (name : String) (ret : CType) (params : List (String × CType)) (st : TState) :
    (∃ c : Crash,
      transpileNode env parentKind (.functionDeclaration name ret params []) st = .error c
        ∧ c.state.errors = st.errors)
    ∧ (∃ c : Crash,
        transpile env (.sourceFile [.functionDeclaration name ret params []]) = .error c) := by
  exact ⟨⟨_, rfl, rfl⟩, ⟨_, rfl⟩⟩

/-- C10: an element access on an identifier indexed by a string literal is
always emitted as `x->lit` (the quotes stripped), whatever the registry
says about `x` — in particular even when `x` is array-typed — so neither
the array lowering nor the `js_get` fallback is used. -/
theorem c10_string_literal_index (env : Env) (parentKind : SyntaxKind)
    (x raw : String) (st : TState) :
    transpileNode env parentKind
        (.elementAccessExpression (.identifier x) (.stringLiteral raw)) st =
      .ok (stEmit ⟨(raw.data.drop 1).dropLast⟩ (stEmit "->" (stEmit x st))) := by
  rfl

/-- Characteristic equation of the `PropertyAccessExpression` case of
`transpileNode` (lines 328-353), used to reason about `.length`
lowering. -/
theorem transpileNode_eq_propAccess (env : Env) (pk : SyntaxKind)
    (pexpr : Node) (pname : String) (st : TState) :
    transpileNode env pk (.propertyAccessExpression pexpr pname) st =
      (let replaced : Option TState :=
        match pexpr with
        | .identifier objName =>
            if pname = "length" then
              match env.vars objName with
              | some vi =>
                  match vi.type with
                  | .arrayT _ cap _ =>
                      if vi.isDynamicArray then
                        some (stEmit "size" (stEmit "." (stEmit objName st)))
                      else
                        some (stEmit (toString cap) st)
                  | _ => none
              | none => none
            else none
        | _ => none
      match replaced with
      | some st => pure st
      | none => do
          let st ← transpileNode env .propertyAccessExpression pexpr st
          let st := stEmit "->" st
          pure (stEmit pname st)) := rfl

/-- Characteristic equation of the `BinaryExpression` case of
`transpileNode` (lines 387-429) for `==`, specialized to identifier
operands (whose own transpilation is a single emit). -/
theorem transpileNode_eq_eqeq (env : Env) (pk : SyntaxKind)
    (a b : String) (lt rt : CType) (st : TState) :
    transpileNode env pk
        (.binaryExpression (.identifier a) .equalsEqualsToken (.identifier b) lt rt) st =
      (if (SyntaxKind.equalsEqualsToken = SyntaxKind.equalsEqualsToken)
          ∧ lt.eqStr "char *" ∧ rt.eqStr "char *" then
        .ok (stHeader .stringh (stEmit ") == 0"
          (stEmit b (stEmit ", " (stEmit a (stEmit "strcmp(" st))))))
      else if (SyntaxKind.equalsEqualsToken = SyntaxKind.equalsEqualsToken)
          ∧ (¬ lt.eqStr "int16_t" ∨ ¬ rt.eqStr "int16_t") then
        .ok (stEmit ")" (stEmit b (stEmit ", " (stEmit a (stEmit "js_eq(" (stHeader .js_eq st))))))
      else
        .ok (stEmit b (stEmit " == " (stEmit a st)))) := rfl

/-- C2 (counterexample): `.length` on a known array that is not a plain
identifier is not lowered to `.size` or a capacity constant.  In `envC2`,
`m` is a fixed array (capacity 2) of fixed `int16_t[3]` arrays, so `m[0]`
is a known array of capacity 3; yet `(m[0]).length` is emitted through the
generic `->` fallback as `m[0]->length`, neither `m[0].size` nor `3`. -/
theorem c2_length_general_expression_cex :
    outOf (transpileNode envC2 .sourceFile
      (.propertyAccessExpression
        (.elementAccessExpression (.identifier "m") (.numericLiteral "0")) "length") {}) =
      some "m[0]->length"
    ∧ ("m[0]->length" : String) ≠ "m[0].size"
    ∧ ("m[0]->length" : String) ≠ "3" := by
  decide

/-- C2 (amended): `.length` is lowered only when the accessed expression
is a plain identifier whose registry entry is array-typed; then the
emitted C is `x.size` for a dynamic array and the capacity constant for a
fixed one, with no runtime call. -/
theorem c2_length_lowering_identifier (env : Env) (parentKind : SyntaxKind)
    (x : String) (vi : VariableInfo) (el : CType) (cap : Nat) (dyn : Bool) (st : TState)
    (hv : env.vars x = some vi) (ht : vi.type = .arrayT el cap dyn) :
    transpileNode env parentKind (.propertyAccessExpression (.identifier x) "length") st =
      .ok (if dyn = true then stEmit "size" (stEmit "." (stEmit x st))
           else stEmit (toString cap) st) := by
  rw [transpileNode_eq_propAccess]
  simp only [hv, ht, VariableInfo.isDynamicArray]
  cases dyn <;> rfl

theorem c2_length_lowering_identifier_witness :
    (transpileNode envC2w .sourceFile
        (.propertyAccessExpression (.identifier "a") "length") {} =
      .ok (if (true : Bool) = true then stEmit "size" (stEmit "." (stEmit "a" {}))
           else stEmit (toString (5 : Nat)) {}))
    ∧ (transpileNode envC2w .sourceFile
        (.propertyAccessExpression (.identifier "b") "length") {} =
      .ok (if (false : Bool) = true then stEmit "size" (stEmit "." (stEmit "b" {}))
           else stEmit (toString (7 : Nat)) {})) :=
  ⟨c2_length_lowering_identifier envC2w .sourceFile "a"
      ⟨"a", .arrayT (.prim "int16_t") 5 true⟩ (.prim "int16_t") 5 true {} rfl rfl,
   c2_length_lowering_identifier envC2w .sourceFile "b"
      ⟨"b", .arrayT (.prim "int16_t") 7 false⟩ (.prim "int16_t") 7 false {} rfl rfl⟩

/-- C3 (counterexample): with the left operand typed `int16_t` and the
right `char *`, the operands are not both non-`int16_t` (the left one is
`int16_t`), so the claim as stated demands the plain ` == ` operator; the
code emits the runtime helper `js_eq` instead. -/
theorem c3_eqeq_mixed_types_cex :
    outOf (transpileNode env0 .sourceFile
      (.binaryExpression (.identifier "n") .equalsEqualsToken (.identifier "s")
        (.prim "int16_t") (.prim "char *")) {}) = some "js_eq(n, s)"
    ∧ ("js_eq(n, s)" : String) ≠ "n == s" := by
  decide

/-- C3 (amended): for `==` on identifier operands, `strcmp(l, r) == 0`
with the `<string.h>` header when both operand types are `char *`;
otherwise `js_eq(l, r)` exactly when NOT BOTH operands are `int16_t` (at
least one side differs); otherwise the plain ` == ` operator. -/
theorem c3_eqeq_lowering (env : Env) (parentKind : SyntaxKind)
    (a b : String) (lt rt : CType) (st : TState) :
    transpileNode env parentKind
        (.binaryExpression (.identifier a) .equalsEqualsToken (.identifier b) lt rt) st =
      (if lt.eqStr "char *" ∧ rt.eqStr "char *" then
        .ok (stHeader .stringh (stEmit ") == 0"
          (stEmit b (stEmit ", " (stEmit a (stEmit "strcmp(" st))))))
      else if ¬ (lt.eqStr "int16_t" ∧ rt.eqStr "int16_t") then
        .ok (stEmit ")" (stEmit b (stEmit ", " (stEmit a (stEmit "js_eq(" (stHeader .js_eq st))))))
      else
        .ok (stEmit b (stEmit " == " (stEmit a st)))) := by
  rw [transpileNode_eq_eqeq]
  by_cases h1 : lt.eqStr "int16_t" = true <;> by_cases h2 : rt.eqStr "int16_t" = true <;>
    simp [h1, h2]


/-- Reduction of the walker's monadic bind on a normal result. -/
theorem ok_bind {α β : Type} (a : α) (f : α → Except Crash β) :
    (Bind.bind (Except.ok a) f : Except Crash β) = f a := rfl

/-- Characteristic equation of the `WhileStatement` case of
`transpileNode` (lines 226-241) for a non-block body: the braces are
emitted by the while handler itself. -/
theorem transpileNode_eq_while_nonblock (env : Env) (pk : SyntaxKind)
    (cond body : Node) (st : TState) (hb : body.kind ≠ .block) :
    transpileNode env pk (.whileStatement cond body) st =
      (do
        let s1 ← transpileNode env .whileStatement cond (stEmit "while (" st)
        let s2 ← transpileNode env .whileStatement body (stInc (stEmit "\x7b\n" (stEmit ")" s1)))
        pure (stEmit "\x7d\n" (stDec s2))) := by
  cases body <;> first | exact absurd rfl hb | rfl

/-- Characteristic equation of the `DoStatement` case of `transpileNode`
(lines 242-256) for a non-block body. -/
theorem transpileNode_eq_doWhile_nonblock (env : Env) (pk : SyntaxKind)
    (body cond : Node) (st : TState) (hb : body.kind ≠ .block) :
    transpileNode env pk (.doStatement body cond) st =
      (do
        let s1 ← transpileNode env .doStatement body (stInc (stEmit "do \x7b\n" st))
        let s2 ← transpileNode env .doStatement cond (stEmit "\x7d while (" (stDec s1))
        pure (stEmit ");\n" s2)) := by
  cases body <;> first | exact absurd rfl hb | rfl

/-- Characteristic equation of the `IfStatement` case of `transpileNode`
(lines 128-147) for a non-block then-branch and no else-branch: only the
indentation is adjusted around the branch, no braces are emitted. -/
theorem transpileNode_eq_if_nonblock (env : Env) (pk : SyntaxKind)
    (cond thenS : Node) (st : TState) (hb : thenS.kind ≠ .block) :
    transpileNode env pk (.ifStatement cond thenS none) st =
      (do
        let s1 ← transpileNode env .ifStatement cond (stEmit "if (" st)
        let s2 ← transpileNode env .ifStatement thenS (stInc (stEmit ")\n" s1))
        pure (stDec s2)) := by
  cases thenS <;> first | exact absurd rfl hb | rfl

/-- C4 (counterexample): an `if` whose body is a single non-block
statement is emitted WITHOUT braces around the body (the handler only
adjusts indentation), contradicting the claim that if-bodies are always
braced. -/
theorem c4_if_nonblock_body_unbraced_cex :
    outOf (transpileNode env0 .sourceFile
      (.ifStatement (.identifier "x") incStmt none) {}) = some "if (x)\ny++;\n"
    ∧ ("if (x)\ny++;\n" : String) ≠ "if (x)\n\x7b\ny++;\n\x7d\n" := by
  decide

/-- C4 (amended): for while and do-while statements the emitted C braces
the body even when the source body is a single non-block statement; an if
statement emits a non-block branch WITHOUT braces (only indented).  The
deltas `dc`, `db` are the texts the condition and the body contribute. -/
theorem c4_body_bracing (env : Env) (parentKind : SyntaxKind)
    (cond body : Node) (st : TState) (hb : body.kind ≠ .block) :
    (∀ (s1 s2 : TState) (dc db : String),
      transpileNode env .whileStatement cond (stEmit "while (" st) = .ok s1 →
      s1.emitter.out = st.emitter.out ++ "while (" ++ dc →
      transpileNode env .whileStatement body (stInc (stEmit "\x7b\n" (stEmit ")" s1))) = .ok s2 →
      s2.emitter.out = s1.emitter.out ++ ")" ++ "\x7b\n" ++ db →
      outOf (transpileNode env parentKind (.whileStatement cond body) st) =
        some (st.emitter.out ++ "while (" ++ dc ++ ")" ++ "\x7b\n" ++ db ++ "\x7d\n"))
    ∧ (∀ (s3 s4 : TState) (db dc : String),
      transpileNode env .doStatement body (stInc (stEmit "do \x7b\n" st)) = .ok s3 →
      s3.emitter.out = st.emitter.out ++ "do \x7b\n" ++ db →
      transpileNode env .doStatement cond (stEmit "\x7d while (" (stDec s3)) = .ok s4 →
      s4.emitter.out = s3.emitter.out ++ "\x7d while (" ++ dc →
      outOf (transpileNode env parentKind (.doStatement body cond) st) =
        some (st.emitter.out ++ "do \x7b\n" ++ db ++ "\x7d while (" ++ dc ++ ");\n"))
    ∧ (∀ (s5 s6 : TState) (dc db : String),
      transpileNode env .ifStatement cond (stEmit "if (" st) = .ok s5 →
      s5.emitter.out = st.emitter.out ++ "if (" ++ dc →
      transpileNode env .ifStatement body (stInc (stEmit ")\n" s5)) = .ok s6 →
      s6.emitter.out = s5.emitter.out ++ ")\n" ++ db →
      outOf (transpileNode env parentKind (.ifStatement cond body none) st) =
        some (st.emitter.out ++ "if (" ++ dc ++ ")\n" ++ db)) := by
  refine ⟨?_, ?_, ?_⟩
  · intro s1 s2 dc db h1 h1d h2 h2d
    rw [transpileNode_eq_while_nonblock env parentKind cond body st hb, h1]
    simp only [ok_bind]
    rw [h2]
    simp only [ok_bind, outOf, stEmit, stDec, EmitterState.emit, EmitterState.decreaseIndent]
    rw [h2d, h1d]
    rfl
  · intro s3 s4 db dc h1 h1d h2 h2d
    rw [transpileNode_eq_doWhile_nonblock env parentKind body cond st hb, h1]
    simp only [ok_bind]
    rw [h2]
    simp only [ok_bind, outOf, stEmit, stDec, EmitterState.emit, EmitterState.decreaseIndent]
    rw [h2d, h1d]
    rfl
  · intro s5 s6 dc db h1 h1d h2 h2d
    rw [transpileNode_eq_if_nonblock env parentKind cond body st hb, h1]
    simp only [ok_bind]
    rw [h2]
    simp only [ok_bind, outOf, stEmit, stInc, stDec,
      EmitterState.emit, EmitterState.increaseIndent, EmitterState.decreaseIndent]
    rw [h2d, h1d]
    rfl

theorem c4_body_bracing_witness :
    (outOf (transpileNode env0 .sourceFile (.whileStatement (.identifier "x") incStmt) {}) =
      some (({} : TState).emitter.out ++ "while (" ++ "x" ++ ")" ++ "\x7b\n" ++ "y++;\n" ++ "\x7d\n"))
    ∧ (outOf (transpileNode env0 .sourceFile (.doStatement incStmt (.identifier "x")) {}) =
      some (({} : TState).emitter.out ++ "do \x7b\n" ++ "y++;\n" ++ "\x7d while (" ++ "x" ++ ");\n"))
    ∧ (outOf (transpileNode env0 .sourceFile (.ifStatement (.identifier "x") incStmt none) {}) =
      some (({} : TState).emitter.out ++ "if (" ++ "x" ++ ")\n" ++ "y++;\n")) := by
  have h := c4_body_bracing env0 .sourceFile (.identifier "x") incStmt {} (by decide)
  exact ⟨h.1 { emitter := { out := "while (x" } }
      { emitter := { out := "while (x)\x7b\ny++;\n", indent := 1 } }
      "x" "y++;\n" (by decide) (by decide) (by decide) (by decide),
    h.2.1 { emitter := { out := "do \x7b\ny++;\n", indent := 1 } }
      { emitter := { out := "do \x7b\ny++;\n\x7d while (x" } }
      "y++;\n" "x" (by decide) (by decide) (by decide) (by decide),
    h.2.2 { emitter := { out := "if (x" } }
      { emitter := { out := "if (x)\ny++;\n", indent := 1 } }
      "x" "y++;\n" (by decide) (by decide) (by decide) (by decide)⟩

/-- C1 (counterexample): translating a unit that records an error (for-in)
and then reaches a function declaration with an empty body ends in a
thrown exception, so `transpile` returns neither the joined error list nor
emitted C although an error was recorded during translation. -/
theorem c1_crash_despite_recorded_error_cex :
    crashErrsOf (transpile env0 cuC1) =
      some ["For-in statement is not yet supported!"] := by
  decide

/-- C1 (amended): whenever the AST traversal completes without a crash,
`transpile` returns the newline-joined error list if at least one error
was recorded and the Emitter's `finalize` output otherwise; `addError`
appends at the end (errors accumulate in recording order) and never
throws. -/
theorem c1_error_routing (env : Env) (cu : Node) (st1 : TState)
    (h : transpileNode env .sourceFile cu {} = .ok st1) :
    (st1.errors ≠ [] → transpile env cu = .ok (String.intercalate "\n" st1.errors))
    ∧ (st1.errors = [] → transpile env cu = .ok st1.emitter.finalize)
    ∧ (∀ (msg : String) (s : TState), (addError msg s).errors = s.errors ++ [msg]) := by
  refine ⟨?_, ?_, fun _ _ => rfl⟩
  · intro hne
    have hlen : st1.errors.length ≠ 0 := by
      simpa [List.length_eq_zero] using hne
    unfold transpile
    rw [h]
    rw [ok_bind, if_pos hlen]
    rfl
  · intro he
    unfold transpile
    rw [h]
    rw [ok_bind, if_neg (by simp [he])]
    rfl

theorem c1_error_routing_witness :
    transpile env0 cuC1w = .ok "For-in statement is not yet supported!" :=
  (c1_error_routing env0 cuC1w
      { errors := ["For-in statement is not yet supported!"] } (by decide)).1 (by decide)

/-- `emitPredefinedHeader` never touches the default target. -/
theorem stHeader_out (k : HeaderKey) (st : TState) :
    (stHeader k st).emitter.out = st.emitter.out := by
  by_cases h : k ∈ st.emitter.headers <;>
    simp [stHeader, EmitterState.emitPredefinedHeader, h]

/-- `emit` appends to the default target. -/
theorem stEmit_out (s : String) (st : TState) :
    (stEmit s st).emitter.out = st.emitter.out ++ s := rfl

/-- `emitToBeginningOfFunction` never touches the default target. -/
theorem stEmitProlog_out (s : String) (st : TState) :
    (stEmitProlog s st).emitter.out = st.emitter.out := rfl

/-- A header key just emitted is in the header set. -/
theorem mem_stHeader_self (k : HeaderKey) (st : TState) :
    k ∈ (stHeader k st).emitter.headers := by
  by_cases hmem : k ∈ st.emitter.headers <;>
    simp [stHeader, EmitterState.emitPredefinedHeader, hmem]

/-- Emitting another header never removes one already present. -/
theorem mem_stHeader_mono (k j : HeaderKey) (st : TState)
    (h : k ∈ st.emitter.headers) : k ∈ (stHeader j st).emitter.headers := by
  by_cases hmem : j ∈ st.emitter.headers <;>
    simp [stHeader, EmitterState.emitPredefinedHeader, hmem, h]

/-- Characteristic equation of the `VariableDeclaration` case of
`transpileNode` (lines 72-117). -/
theorem transpileNode_eq_varDecl (env : Env) (pk : SyntaxKind)
    (name : String) (initializer : Option Node) (st : TState) :
    transpileNode env pk (.variableDeclaration name initializer) st =
      (let varInfo := env.vars name
       let cTypeString :=
         match varInfo with
         | some vi => getTypeString vi.type
         | none => "void *"
       let stDecl :=
         if strContains cTypeString "\x7bvar\x7d" then
           stEmitProlog (strReplaceFirst cTypeString "\x7bvar\x7d" name) st
         else
           stEmitProlog (cTypeString ++ " " ++ name) st
       let stDecl2 := stEmitProlog ";\n" stDecl
       match varInfo with
       | none => .error ⟨"TypeError: cannot read requiresAllocation of undefined", stDecl2⟩
       | some vi =>
           let stAlloc :=
             if vi.requiresAllocation then
               match vi.type with
               | .arrayT _ cap _ =>
                   let optimizedCap := Nat.max (cap * 2) 4
                   stHeader .stdlibh (stHeader .asserth (stEmit
                     ("ARRAY_CREATE(" ++ vi.name ++ ", " ++ toString optimizedCap
                       ++ ", " ++ toString cap ++ ");\n") stDecl2))
               | _ =>
                   stHeader .stdlibh (stHeader .asserth (stEmit
                     ("assert(" ++ vi.name ++ " != NULL);\n")
                     (stEmit ("malloc(sizeof(*" ++ vi.name ++ "));\n")
                       (stEmit " = " (stEmit vi.name stDecl2)))))
             else stDecl2
           transpileVarDeclInitializer env vi name initializer stAlloc) := rfl

/-- C8: a variable declaration whose registry type is a dynamic array of
capacity `c` emits `ARRAY_CREATE(name, max(c * 2, 4), c)` and adds the
assert and stdlib headers.  `stA` is the state right after the
allocation; `di`/`hd` are the deltas the (arbitrary) initializer tail
contributes. -/
theorem c8_dynamic_array_allocation (env : Env) (parentKind : SyntaxKind)
    (name : String) (initializer : Option Node) (st stA st1 : TState)
    (vi : VariableInfo) (e : CType) (c : Nat) (di : String) (hd : List HeaderKey)
    (hv : env.vars name = some vi) (ht : vi.type = .arrayT e c true)
    (hA : stA = stHeader .stdlibh (stHeader .asserth (stEmit
        ("ARRAY_CREATE(" ++ vi.name ++ ", " ++ toString (Nat.max (c * 2) 4)
          ++ ", " ++ toString c ++ ");\n")
        (stEmitProlog ";\n"
          (if strContains (getTypeString (CType.arrayT e c true)) "\x7bvar\x7d" then
            stEmitProlog (strReplaceFirst (getTypeString (CType.arrayT e c true))
              "\x7bvar\x7d" name) st
          else
            stEmitProlog (getTypeString (CType.arrayT e c true) ++ " " ++ name) st)))))
    (hi : transpileVarDeclInitializer env vi name initializer stA = .ok st1)
    (hio : st1.emitter.out = stA.emitter.out ++ di)
    (hih : st1.emitter.headers = stA.emitter.headers ++ hd) :
    transpileNode env parentKind (.variableDeclaration name initializer) st = .ok st1
    ∧ st1.emitter.out = st.emitter.out
        ++ ("ARRAY_CREATE(" ++ vi.name ++ ", " ++ toString (Nat.max (c * 2) 4)
            ++ ", " ++ toString c ++ ");\n") ++ di
    ∧ HeaderKey.asserth ∈ st1.emitter.headers
    ∧ HeaderKey.stdlibh ∈ st1.emitter.headers := by
  refine ⟨?_, ?_, ?_, ?_⟩
  · rw [transpileNode_eq_varDecl]
    simp only [hv, ht, VariableInfo.requiresAllocation, CType.requiresAllocation, if_true]
    rw [← hA] at *
    exact hi
  · rw [hio, hA]
    split <;> simp [stHeader_out, stEmit_out, stEmitProlog_out]
  · rw [hih, hA]
    exact List.mem_append_left _
      (mem_stHeader_mono _ _ _ (mem_stHeader_self _ _))
  · rw [hih, hA]
    exact List.mem_append_left _ (mem_stHeader_self _ _)

theorem c8_dynamic_array_allocation_witness :
    transpileNode envC8 .sourceFile (.variableDeclaration "a" none) {} =
      .ok { emitter := { out := "ARRAY_CREATE(a, 6, 3);\n",
                         prologue := "DYN_ARRAY(int16_t) a;\n",
                         headers := [.asserth, .stdlibh] } }
    ∧ ({ emitter := { out := "ARRAY_CREATE(a, 6, 3);\n",
                      prologue := "DYN_ARRAY(int16_t) a;\n",
                      headers := [.asserth, .stdlibh] } } : TState).emitter.out =
        ({} : TState).emitter.out ++ "ARRAY_CREATE(a, 6, 3);\n" ++ ""
    ∧ HeaderKey.asserth ∈ ([.asserth, .stdlibh] : List HeaderKey)
    ∧ HeaderKey.stdlibh ∈ ([.asserth, .stdlibh] : List HeaderKey) :=
  c8_dynamic_array_allocation envC8 .sourceFile "a" none {}
    { emitter := { out := "ARRAY_CREATE(a, 6, 3);\n",
                   prologue := "DYN_ARRAY(int16_t) a;\n",
                   headers := [.asserth, .stdlibh] } }
    { emitter := { out := "ARRAY_CREATE(a, 6, 3);\n",
                   prologue := "DYN_ARRAY(int16_t) a;\n",
                   headers := [.asserth, .stdlibh] } }
    ⟨"a", .arrayT (.prim "int16_t") 3 true⟩ (.prim "int16_t") 3 "" []
    rfl rfl (by decide) (by decide) (by decide) (by decide)

/-- `emitOnceToBeginningOfFunction` never touches the default target. -/
theorem stEmitOnceProlog_out (s : String) (st : TState) :
    (stEmitOnceProlog s st).emitter.out = st.emitter.out := by
  by_cases h : s ∈ st.emitter.onceKeys <;>
    simp [stEmitOnceProlog, EmitterState.emitOnceToBeginningOfFunction, h]

/-- After `emitOnceToBeginningOfFunction` the text is registered among the
once-keys (it either was already there or has just been added). -/
theorem mem_stEmitOnceProlog_self (s : String) (st : TState) :
    s ∈ (stEmitOnceProlog s st).emitter.onceKeys := by
  by_cases h : s ∈ st.emitter.onceKeys <;>
    simp [stEmitOnceProlog, EmitterState.emitOnceToBeginningOfFunction, h]

/-- `emit` and `increaseIndent` keep the once-keys. -/
theorem onceKeys_stEmit (s : String) (st : TState) :
    (stEmit s st).emitter.onceKeys = st.emitter.onceKeys := rfl

theorem onceKeys_stInc (st : TState) :
    (stInc st).emitter.onceKeys = st.emitter.onceKeys := rfl

/-- Characteristic equation of the `ForOfStatement` case of
`transpileNode` (lines 190-222) for an identifier iterand and a non-block
body.  Note there is no array-ness check before the `<ArrayType>` cast:
a registry entry with a non-array type yields the capacity text
"undefined". -/
theorem transpileNode_eq_forOf_ident_nonblock (env : Env) (pk : SyntaxKind)
    (initDecls : List Node) (aname : String) (body : Node) (st : TState)
    (hb : body.kind ≠ .block) :
    transpileNode env pk (.forOfStatement initDecls (.identifier aname) body) st =
      (let it := "iterator_" ++ toString (st.iterCount + 1)
       let st1 := stEmitOnceProlog ("int16_t " ++ it ++ ";\n")
         { st with iterCount := st.iterCount + 1 }
       match env.vars aname with
       | none => .error ⟨"TypeError: cannot read type of undefined", st1⟩
       | some arrayVarInfo =>
           let capacityStr :=
             match arrayVarInfo.type with
             | .arrayT _ cap _ => toString cap
             | _ => "undefined"
           let arraySize :=
             if arrayVarInfo.isDynamicArray then aname ++ ".size" else capacityStr
           let arrayAccess :=
             if arrayVarInfo.isDynamicArray then aname ++ ".data" else aname
           let st2 := stInc (stEmit "\x7b\n" (stEmit
             ("for (" ++ it ++ " = 0; " ++ it ++ " < " ++ arraySize ++ "; " ++ it ++ "++)\n")
             st1))
           do
             let s1 ← transpileForOfBinding env arrayAccess it initDecls st2
             let s2 ← transpileNode env .forOfStatement body s1
             pure (stEmit "\x7d\n" (stDec s2))) := by
  cases body <;> first | exact absurd rfl hb | rfl

/-- C7 (counterexample): a for-of whose iterand is an identifier that is
NOT array-typed (here `m2 : int16_t`) reports no error at all; the
unchecked `<ArrayType>` cast turns the missing capacity into the literal
text `undefined` inside the emitted loop header. -/
theorem c7_nonarray_identifier_no_error_cex :
    errsOf (transpileNode envC7 .sourceFile
      (.forOfStatement [.variableDeclaration "x" none] (.identifier "m2")
        (.expressionStatement (.postfixUnaryExpression (.identifier "m2") .plusPlusToken))) {}) =
      some []
    ∧ outOf (transpileNode envC7 .sourceFile
      (.forOfStatement [.variableDeclaration "x" none] (.identifier "m2")
        (.expressionStatement (.postfixUnaryExpression (.identifier "m2") .plusPlusToken))) {}) =
      some "for (iterator_1 = 0; iterator_1 < undefined; iterator_1++)\n\x7b\nx = m2[iterator_1];\nm2++;\n\x7d\n" := by
  decide

/-- C7 (amended): a for-of reports an error exactly when the iterand is
not an identifier (the message interpolates the statement's source text);
array-typedness is NOT checked.  For an identifier iterand whose registry
entry IS array-typed, a fresh `int16_t` counter from
`addNewIteratorVariable` is once-declared in the function prologue and the
emitted C is `for (it = 0; it < SIZE; it++)` assigning the element to the
loop binding at the top of each iteration, where SIZE is `arr.size` for a
dynamic array and the static capacity otherwise. -/
theorem c7_forof_lowering (env : Env) (parentKind : SyntaxKind) :
    (∀ (initDecls : List Node) (expr body : Node) (st : TState),
      expr.kind ≠ .identifier →
      transpileNode env parentKind (.forOfStatement initDecls expr body) st =
        .ok (addError ("Unsupported type of expression as array in for of: "
          ++ Node.getText (.forOfStatement initDecls expr body)) st))
    ∧ (∀ (initDecls : List Node) (aname : String) (body : Node) (st : TState)
        (vi : VariableInfo) (el : CType) (cap : Nat) (dyn : Bool)
        (it size acc : String) (st2 s1 s2 : TState) (dbind dbody : String),
      env.vars aname = some vi →
      vi.type = .arrayT el cap dyn →
      it = "iterator_" ++ toString (st.iterCount + 1) →
      size = (if dyn = true then aname ++ ".size" else toString cap) →
      acc = (if dyn = true then aname ++ ".data" else aname) →
      st2 = stInc (stEmit "\x7b\n" (stEmit
          ("for (" ++ it ++ " = 0; " ++ it ++ " < " ++ size ++ "; " ++ it ++ "++)\n")
          (stEmitOnceProlog ("int16_t " ++ it ++ ";\n")
            { st with iterCount := st.iterCount + 1 }))) →
      body.kind ≠ .block →
      transpileForOfBinding env acc it initDecls st2 = .ok s1 →
      s1.emitter.out = st2.emitter.out ++ dbind →
      transpileNode env .forOfStatement body s1 = .ok s2 →
      s2.emitter.out = s1.emitter.out ++ dbody →
      outOf (transpileNode env parentKind
          (.forOfStatement initDecls (.identifier aname) body) st) =
        some (st.emitter.out
          ++ ("for (" ++ it ++ " = 0; " ++ it ++ " < " ++ size ++ "; " ++ it ++ "++)\n")
          ++ "\x7b\n" ++ dbind ++ dbody ++ "\x7d\n")
        ∧ ("int16_t " ++ it ++ ";\n") ∈ st2.emitter.onceKeys) := by
  constructor
  · intro initDecls expr body st hne
    cases expr <;> first | exact absurd rfl hne | rfl
  · intro initDecls aname body st vi el cap dyn it size acc st2 s1 s2 dbind dbody
      hv ht hit hsize hacc hst2 hb hbind hbindd hbody hbodyd
    subst hit hsize hacc hst2
    constructor
    · rw [transpileNode_eq_forOf_ident_nonblock env parentKind initDecls aname body st hb]
      simp only [hv, ht, VariableInfo.isDynamicArray]
      rw [hbind]
      simp only [ok_bind]
      rw [hbody]
      simp only [ok_bind, outOf, stEmit, stDec, EmitterState.emit, EmitterState.decreaseIndent]
      rw [hbodyd, hbindd]
      simp [stEmit, stInc, EmitterState.emit, EmitterState.increaseIndent, stEmitOnceProlog_out]
      rfl
    · rw [onceKeys_stInc, onceKeys_stEmit, onceKeys_stEmit]
      exact mem_stEmitOnceProlog_self _ _

theorem c7_forof_lowering_witness :
    (transpileNode envC7w .sourceFile
        (.forOfStatement [.variableDeclaration "v" none] (.numericLiteral "1") incStmt) {} =
      .ok (addError ("Unsupported type of expression as array in for of: "
        ++ Node.getText (.forOfStatement [.variableDeclaration "v" none]
            (.numericLiteral "1") incStmt)) {}))
    ∧ (outOf (transpileNode envC7w .sourceFile
        (.forOfStatement [.variableDeclaration "v" none] (.identifier "arr") incStmt) {}) =
      some (({} : TState).emitter.out
        ++ ("for (" ++ "iterator_1" ++ " = 0; " ++ "iterator_1" ++ " < " ++ "arr.size"
            ++ "; " ++ "iterator_1" ++ "++)\n")
        ++ "\x7b\n" ++ "v = arr.data[iterator_1];\n" ++ "y++;\n" ++ "\x7d\n")
      ∧ ("int16_t " ++ "iterator_1" ++ ";\n") ∈
        ({ emitter := { out := "for (iterator_1 = 0; iterator_1 < arr.size; iterator_1++)\n\x7b\n",
                        prologue := "int16_t iterator_1;\n",
                        onceKeys := ["int16_t iterator_1;\n"],
                        indent := 1 },
           iterCount := 1 } : TState).emitter.onceKeys) := by
  have h := c7_forof_lowering envC7w .sourceFile
  refine ⟨h.1 [.variableDeclaration "v" none] (.numericLiteral "1") incStmt {} (by decide), ?_⟩
  exact h.2 [.variableDeclaration "v" none] "arr" incStmt {}
    ⟨"arr", .arrayT (.prim "int16_t") 4 true⟩ (.prim "int16_t") 4 true
    "iterator_1" "arr.size" "arr.data"
    { emitter := { out := "for (iterator_1 = 0; iterator_1 < arr.size; iterator_1++)\n\x7b\n",
                   prologue := "int16_t iterator_1;\n",
                   onceKeys := ["int16_t iterator_1;\n"],
                   indent := 1 },
      iterCount := 1 }
    { emitter := { out := "for (iterator_1 = 0; iterator_1 < arr.size; iterator_1++)\n\x7b\nv = arr.data[iterator_1];\n",
                   prologue := "int16_t iterator_1;\nint16_t v;\n",
                   onceKeys := ["int16_t iterator_1;\n"],
                   indent := 1 },
      iterCount := 1 }
    { emitter := { out := "for (iterator_1 = 0; iterator_1 < arr.size; iterator_1++)\n\x7b\nv = arr.data[iterator_1];\ny++;\n",
                   prologue := "int16_t iterator_1;\nint16_t v;\n",
                   onceKeys := ["int16_t iterator_1;\n"],
                   indent := 1 },
      iterCount := 1 }
    "v = arr.data[iterator_1];\n" "y++;\n"
    rfl rfl (by decide) (by decide) (by decide) (by decide) (by decide)
    (by decide) (by decide) (by decide) (by decide)

/-- Stripping via the `/;\n$/` regex of line 171 after an appended ";\n"
recovers the original string. -/
theorem stripSemiNl_append (a : String) : stripSemiNl (a ++ ";\n") = a := by
  have hdata : (a ++ ";\n").data = a.data ++ [';', '\n'] := String.data_append a ";\n"
  have hsuf : (";\n").data.IsSuffix (a ++ ";\n").data := by
    rw [hdata]
    exact List.suffix_append a.data [';', '\n']
  show (if decide ((";\n").data.IsSuffix (a ++ ";\n").data) then
      (⟨(a ++ ";\n").data.take ((a ++ ";\n").data.length - 2)⟩ : String)
    else a ++ ";\n") = a
  rw [if_pos (decide_eq_true hsuf), hdata]
  have hlen : (a.data ++ [';', '\n']).length - 2 = a.data.length := by simp
  rw [hlen, List.take_left]

/-- Reduction of the walker's monadic bind on a `pure` result. -/
theorem pure_bind_tr {α β : Type} (a : α) (f : α → Except Crash β) :
    (Bind.bind (pure a) f : Except Crash β) = f a := rfl

/-- `stStripSemiNl` on a state whose output ends in ";\n" removes exactly
that suffix (no other component is touched). -/
theorem stStripSemiNl_out (s : TState) (a : String)
    (h : s.emitter.out = a ++ ";\n") : (stStripSemiNl s).emitter.out = a := by
  show stripSemiNl s.emitter.out = a
  rw [h, stripSemiNl_append]

/-- Splitting the `for` initializer policy (lines 154-166): with the last
declaration singled out, all leading declarations go through the
standalone path (the `slice` + `forEach` of line 156, i.e.
`transpileNodes`) and the last through the singleton policy. -/
theorem transpileForInit_append (env : Env) (ds : List Node) (lastN : Node) :
    ∀ st, transpileForInit env (ds ++ [lastN]) st =
      Bind.bind (transpileNodes env .variableDeclarationList ds st)
        (transpileForInit env [lastN]) := by
  induction ds with
  | nil =>
      intro st
      rfl
  | cons d ds ih =>
      intro st
      cases ds with
      | nil =>
          show (Bind.bind (transpileNode env .variableDeclarationList d st)
              (fun s => transpileForInit env [lastN] s)) =
            Bind.bind (Bind.bind (transpileNode env .variableDeclarationList d st)
              (fun s => transpileNodes env .variableDeclarationList [] s))
              (transpileForInit env [lastN])
          cases hX : transpileNode env .variableDeclarationList d st with
          | error e => rfl
          | ok a => rfl
      | cons d2 ds2 =>
          show (Bind.bind (transpileNode env .variableDeclarationList d st)
              (fun s => transpileForInit env ((d2 :: ds2) ++ [lastN]) s)) =
            Bind.bind (Bind.bind (transpileNode env .variableDeclarationList d st)
              (fun s => transpileNodes env .variableDeclarationList (d2 :: ds2) s))
              (transpileForInit env [lastN])
          cases hX : transpileNode env .variableDeclarationList d st with
          | error e => rfl
          | ok a => exact ih a

/-- The last initializer declaration when its variable does not require
heap allocation (lines 164-172): transpiled inside the header after
`for (`, then the trailing ";\n" stripped. -/
theorem transpileForInit_last_noalloc (env : Env) (lname : String)
    (lInit : Option Node) (vi : VariableInfo) (st : TState)
    (hv : env.vars lname = some vi) (hra : vi.requiresAllocation = false) :
    transpileForInit env [.variableDeclaration lname lInit] st =
    (do
      let s ← transpileNode env .variableDeclarationList
        (.variableDeclaration lname lInit) (stEmit "for (" st)
      pure (stStripSemiNl s)) := by
  have h : transpileForInit env [.variableDeclaration lname lInit] st =
      (match env.vars lname with
       | none =>
           Except.error
             ⟨"TypeError: cannot read requiresAllocation of undefined", st⟩
       | some vi =>
           if vi.requiresAllocation then do
             let s ← transpileNode env .variableDeclarationList
               (.variableDeclaration lname lInit) st
             pure (stEmit "for (" s)
           else do
             let s ← transpileNode env .variableDeclarationList
               (.variableDeclaration lname lInit) (stEmit "for (" st)
             pure (stStripSemiNl s)) := rfl
  rw [h, hv]
  show (if vi.requiresAllocation = true then
      (do
        let s ← transpileNode env .variableDeclarationList
          (.variableDeclaration lname lInit) st
        pure (stEmit "for (" s))
      else do
        let s ← transpileNode env .variableDeclarationList
          (.variableDeclaration lname lInit) (stEmit "for (" st)
        pure (stStripSemiNl s)) = _
  rw [hra, if_neg Bool.false_ne_true]

/-- The last initializer declaration when its variable requires heap
allocation (lines 161-163): hoisted like the leading ones, and the header
slot after `for (` is left empty. -/
theorem transpileForInit_last_alloc (env : Env) (lname : String)
    (lInit : Option Node) (vi : VariableInfo) (st : TState)
    (hv : env.vars lname = some vi) (hra : vi.requiresAllocation = true) :
    transpileForInit env [.variableDeclaration lname lInit] st =
    (do
      let s ← transpileNode env .variableDeclarationList
        (.variableDeclaration lname lInit) st
      pure (stEmit "for (" s)) := by
  have h : transpileForInit env [.variableDeclaration lname lInit] st =
      (match env.vars lname with
       | none =>
           Except.error
             ⟨"TypeError: cannot read requiresAllocation of undefined", st⟩
       | some vi =>
           if vi.requiresAllocation then do
             let s ← transpileNode env .variableDeclarationList
               (.variableDeclaration lname lInit) st
             pure (stEmit "for (" s)
           else do
             let s ← transpileNode env .variableDeclarationList
               (.variableDeclaration lname lInit) (stEmit "for (" st)
             pure (stStripSemiNl s)) := rfl
  rw [h, hv]
  show (if vi.requiresAllocation = true then
      (do
        let s ← transpileNode env .variableDeclarationList
          (.variableDeclaration lname lInit) st
        pure (stEmit "for (" s))
      else do
        let s ← transpileNode env .variableDeclarationList
          (.variableDeclaration lname lInit) (stEmit "for (" st)
        pure (stStripSemiNl s)) = _
  rw [hra, if_pos rfl]

/-- Characteristic equation of the `ForStatement` case of `transpileNode`
(lines 149-188) for a `VariableDeclarationList` initializer, present
condition and incrementor, and a non-block body. -/
theorem transpileNode_eq_for_declList_nonblock (env : Env) (pk : SyntaxKind)
    (decls : List Node) (c i body : Node) (st : TState)
    (hb : body.kind ≠ .block) :
    transpileNode env pk
      (.forStatement (some (.variableDeclarationList decls)) (some c) (some i) body) st =
    (do
      let s1 ← transpileForInit env decls st
      let s2 ← transpileNode env .forStatement c (stEmit ";" s1)
      let s3 ← transpileNode env .forStatement i (stEmit ";" s2)
      let s4 ← transpileNode env .forStatement body
        (stInc (stEmit "\x7b\n" (stEmit ")\n" s3)))
      pure (stEmit "\x7d\n" (stDec s4))) := by
  cases body <;> first | exact absurd rfl hb | rfl

/-- C6: for every `for` statement whose `VariableDeclarationList`
initializer declares multiple variables, all declarations but the last are
emitted as standalone declarations before the `for` header.  If the last
declaration's variable does not require heap allocation it is placed
inside the header after `for (` with its trailing ";\n" stripped, so the
header reads `for (init; cond; incr)` (part 1); if it requires heap
allocation it is hoisted with the others and the header's initializer slot
is left empty, `for (; cond; incr)` (part 2). -/
theorem c6_for_initializer_policy (env : Env) (parentKind : SyntaxKind)
    (ds : List Node) (c i body : Node) (st s1 : TState) (d1 : String)
    (_hne : ds ≠ [])
    (hb : body.kind ≠ .block)
    (hds : transpileNodes env .variableDeclarationList ds st = .ok s1)
    (hdsd : s1.emitter.out = st.emitter.out ++ d1) :
    (∀ (lname : String) (lInit : Option Node) (vi : VariableInfo)
       (s2 s3 s4 s5 : TState) (d2 dcnd dinc dbody : String),
      env.vars lname = some vi →
      vi.requiresAllocation = false →
      transpileNode env .variableDeclarationList (.variableDeclaration lname lInit)
        (stEmit "for (" s1) = .ok s2 →
      s2.emitter.out = s1.emitter.out ++ "for (" ++ d2 ++ ";\n" →
      transpileNode env .forStatement c (stEmit ";" (stStripSemiNl s2)) = .ok s3 →
      s3.emitter.out = (stStripSemiNl s2).emitter.out ++ ";" ++ dcnd →
      transpileNode env .forStatement i (stEmit ";" s3) = .ok s4 →
      s4.emitter.out = s3.emitter.out ++ ";" ++ dinc →
      transpileNode env .forStatement body
        (stInc (stEmit "\x7b\n" (stEmit ")\n" s4))) = .ok s5 →
      s5.emitter.out = s4.emitter.out ++ ")\n" ++ "\x7b\n" ++ dbody →
      outOf (transpileNode env parentKind
        (.forStatement
          (some (.variableDeclarationList (ds ++ [.variableDeclaration lname lInit])))
          (some c) (some i) body) st) =
        some (st.emitter.out ++ d1 ++ "for (" ++ d2 ++ ";" ++ dcnd ++ ";" ++ dinc
          ++ ")\n" ++ "\x7b\n" ++ dbody ++ "\x7d\n"))
    ∧ (∀ (lname : String) (lInit : Option Node) (vi : VariableInfo)
       (s2 s3 s4 s5 : TState) (d2 dcnd dinc dbody : String),
      env.vars lname = some vi →
      vi.requiresAllocation = true →
      transpileNode env .variableDeclarationList (.variableDeclaration lname lInit)
        s1 = .ok s2 →
      s2.emitter.out = s1.emitter.out ++ d2 →
      transpileNode env .forStatement c (stEmit ";" (stEmit "for (" s2)) = .ok s3 →
      s3.emitter.out = s2.emitter.out ++ "for (" ++ ";" ++ dcnd →
      transpileNode env .forStatement i (stEmit ";" s3) = .ok s4 →
      s4.emitter.out = s3.emitter.out ++ ";" ++ dinc →
      transpileNode env .forStatement body
        (stInc (stEmit "\x7b\n" (stEmit ")\n" s4))) = .ok s5 →
      s5.emitter.out = s4.emitter.out ++ ")\n" ++ "\x7b\n" ++ dbody →
      outOf (transpileNode env parentKind
        (.forStatement
          (some (.variableDeclarationList (ds ++ [.variableDeclaration lname lInit])))
          (some c) (some i) body) st) =
        some (st.emitter.out ++ d1 ++ d2 ++ "for (" ++ ";" ++ dcnd ++ ";" ++ dinc
          ++ ")\n" ++ "\x7b\n" ++ dbody ++ "\x7d\n")) := by
  constructor
  · intro lname lInit vi s2 s3 s4 s5 d2 dcnd dinc dbody hv hra h2 h2d h3 h3d h4 h4d h5 h5d
    rw [transpileNode_eq_for_declList_nonblock env parentKind
      (ds ++ [Node.variableDeclaration lname lInit]) c i body st hb]
    rw [transpileForInit_append env ds (Node.variableDeclaration lname lInit) st]
    rw [hds, ok_bind]
    rw [transpileForInit_last_noalloc env lname lInit vi s1 hv hra]
    rw [h2]
    simp only [ok_bind, pure_bind_tr]
    rw [h3]
    simp only [ok_bind]
    rw [h4]
    simp only [ok_bind]
    rw [h5]
    simp only [ok_bind, outOf, stEmit, stDec, EmitterState.emit, EmitterState.decreaseIndent]
    rw [h5d, h4d, h3d, stStripSemiNl_out s2 (s1.emitter.out ++ "for (" ++ d2) h2d, hdsd]
    rfl
  · intro lname lInit vi s2 s3 s4 s5 d2 dcnd dinc dbody hv hra h2 h2d h3 h3d h4 h4d h5 h5d
    rw [transpileNode_eq_for_declList_nonblock env parentKind
      (ds ++ [Node.variableDeclaration lname lInit]) c i body st hb]
    rw [transpileForInit_append env ds (Node.variableDeclaration lname lInit) st]
    rw [hds, ok_bind]
    rw [transpileForInit_last_alloc env lname lInit vi s1 hv hra]
    rw [h2]
    simp only [ok_bind, pure_bind_tr]
    rw [h3]
    simp only [ok_bind]
    rw [h4]
    simp only [ok_bind]
    rw [h5]
    simp only [ok_bind, outOf, stEmit, stDec, EmitterState.emit, EmitterState.decreaseIndent]
    rw [h5d, h4d, h3d, h2d, hdsd]
    rfl

theorem c6_for_initializer_policy_witness :
    (outOf (transpileNode envC6 .sourceFile
      (.forStatement
        (some (.variableDeclarationList
          [.variableDeclaration "i" (some (.numericLiteral "0")),
           .variableDeclaration "j" (some (.numericLiteral "0"))]))
        (some (.binaryExpression (.identifier "i") .lessThanToken (.numericLiteral "10")
          (.prim "int16_t") (.prim "int16_t")))
        (some (.postfixUnaryExpression (.identifier "i") .plusPlusToken))
        incStmt) {}) =
      some (({} : TState).emitter.out ++ "i = 0;\n" ++ "for (" ++ "j = 0" ++ ";"
        ++ "i < 10" ++ ";" ++ "i++" ++ ")\n" ++ "\x7b\n" ++ "y++;\n" ++ "\x7d\n"))
    ∧ (outOf (transpileNode envC6 .sourceFile
      (.forStatement
        (some (.variableDeclarationList
          [.variableDeclaration "i" (some (.numericLiteral "0")),
           .variableDeclaration "d" none]))
        (some (.binaryExpression (.identifier "i") .lessThanToken (.numericLiteral "10")
          (.prim "int16_t") (.prim "int16_t")))
        (some (.postfixUnaryExpression (.identifier "i") .plusPlusToken))
        incStmt) {}) =
      some (({} : TState).emitter.out ++ "i = 0;\n" ++ "ARRAY_CREATE(d, 4, 2);\n"
        ++ "for (" ++ ";" ++ "i < 10" ++ ";" ++ "i++" ++ ")\n" ++ "\x7b\n"
        ++ "y++;\n" ++ "\x7d\n")) := by
  have h := c6_for_initializer_policy envC6 .sourceFile
    [.variableDeclaration "i" (some (.numericLiteral "0"))]
    (.binaryExpression (.identifier "i") .lessThanToken (.numericLiteral "10")
      (.prim "int16_t") (.prim "int16_t"))
    (.postfixUnaryExpression (.identifier "i") .plusPlusToken)
    incStmt {} { emitter := { out := "i = 0;\n", prologue := "int16_t i;\n" } } "i = 0;\n"
    (List.cons_ne_nil _ _) (by decide) (by decide) (by decide)
  refine ⟨?_, ?_⟩
  · exact h.1 "j" (some (.numericLiteral "0")) ⟨"j", .prim "int16_t"⟩
      { emitter := { out := "i = 0;\nfor (j = 0;\n",
                     prologue := "int16_t i;\nint16_t j;\n" } }
      { emitter := { out := "i = 0;\nfor (j = 0;i < 10",
                     prologue := "int16_t i;\nint16_t j;\n" } }
      { emitter := { out := "i = 0;\nfor (j = 0;i < 10;i++",
                     prologue := "int16_t i;\nint16_t j;\n" } }
      { emitter := { out := "i = 0;\nfor (j = 0;i < 10;i++)\n\x7b\ny++;\n",
                     prologue := "int16_t i;\nint16_t j;\n", indent := 1 } }
      "j = 0" "i < 10" "i++" "y++;\n"
      rfl rfl (by decide) (by decide) (by decide) (by decide) (by decide)
      (by decide) (by decide) (by decide)
  · exact h.2 "d" none ⟨"d", .arrayT (.prim "int16_t") 2 true⟩
      { emitter := { out := "i = 0;\nARRAY_CREATE(d, 4, 2);\n",
                     prologue := "int16_t i;\nDYN_ARRAY(int16_t) d;\n",
                     headers := [.asserth, .stdlibh] } }
      { emitter := { out := "i = 0;\nARRAY_CREATE(d, 4, 2);\nfor (;i < 10",
                     prologue := "int16_t i;\nDYN_ARRAY(int16_t) d;\n",
                     headers := [.asserth, .stdlibh] } }
      { emitter := { out := "i = 0;\nARRAY_CREATE(d, 4, 2);\nfor (;i < 10;i++",
                     prologue := "int16_t i;\nDYN_ARRAY(int16_t) d;\n",
                     headers := [.asserth, .stdlibh] } }
      { emitter := { out := "i = 0;\nARRAY_CREATE(d, 4, 2);\nfor (;i < 10;i++)\n\x7b\ny++;\n",
                     prologue := "int16_t i;\nDYN_ARRAY(int16_t) d;\n",
                     headers := [.asserth, .stdlibh], indent := 1 } }
      "ARRAY_CREATE(d, 4, 2);\n" "i < 10" "i++" "y++;\n"
      rfl rfl (by decide) (by decide) (by decide) (by decide) (by decide)
      (by decide) (by decide) (by decide)
